import Mathlib

/-! BLE packet protocol: codec and reliable delivery.

A shallow embedding of `BLE_Bluetooh.c` / `BLE_Bluetooh.h`.

Conventions of the embedding:

* `uint8_t` and `uint16_t` values are natural numbers. A struct field or buffer cell
  holds a value of its C type; a copy between cells of the same width is a plain copy.
  The `uint16_t` accumulator of the checksum is reduced `% 65536` at every addition,
  and the two checksum bytes are produced with the same shift and mask as the source.
* A byte buffer (`uint8_t*`) is a `List Nat`; `buffer[i] = v` is `List.set`,
  `buffer + k` is `List.drop k`, and a read `data[i]` is `List.getD i 0`.
  `buffer_len` is the length the caller declares; the theorems assume the buffer
  really has that many bytes, so every read and write they cover is in bounds.
* The builders take the struct by pointer and also store the checksum into it, so
  each builder returns the returned length, the updated struct and the buffer.
* The transport (`gattlib_write_char_by_uuid`, `gattlib_write_char_by_handle`),
  `malloc`, `pthread_cond_timedwait` and the notification thread are the environment:
  their answers are read from a stream, one `Attempt` per loop iteration.
* `printf` / `print_packet` output is not modelled.
-/

namespace BleGatt

/-! ## Protocol constants (`BLE_Bluetooh.h`) -/

def CMD_A0 : Nat := 0xA0
def CMD_A1 : Nat := 0xA1
def CMD_A2 : Nat := 0xA2
def CMD_A3 : Nat := 0xA3
def NOTIFY_UUID : String := "0xffe4"
def MAX_RETRIES : Nat := 3
def FEEDBACK_TIMEOUT_MS : Nat := 1000

/-- The value of `ETIMEDOUT` from `<errno.h>` on Linux, the platform of the program. -/
def ETIMEDOUT : Int := 110

/-! ## Command structs (`BLE_Bluetooh.h`) -/

/-- The struct `ble_cmd_a0_t`: gear command. -/
structure ble_cmd_a0_t where
  cmd : Nat
  gear : Nat
  checksum : Nat
deriving DecidableEq, Repr

/-- The struct `ble_cmd_a1_t`: basic information command. -/
structure ble_cmd_a1_t where
  cmd : Nat
  play_mode : Nat
  total_lists : Nat
  current_list : Nat
  effect_count : Nat
  current_effect : Nat
  checksum : Nat
deriving DecidableEq, Repr

/-- The struct `ble_cmd_a2_t`: segment header; `type_list` is the 16-byte array member. -/
structure ble_cmd_a2_t where
  cmd : Nat
  total_bytes : Nat
  total_packets : Nat
  char_len : Nat
  type_list : List Nat
  checksum : Nat
deriving DecidableEq, Repr

/-- The struct `ble_cmd_a3_t`: segment chunk; `data` is the 64-byte array member. -/
structure ble_cmd_a3_t where
  cmd : Nat
  packet_num : Nat
  data_len : Nat
  data : List Nat
  data_checksum : Nat
deriving DecidableEq, Repr

/-- What a builder leaves behind: the returned length, the struct it was given
(with its checksum field stored) and the destination buffer. -/
structure Built (α : Type) where
  ret : Nat
  cmd_data : α
  buffer : List Nat
deriving DecidableEq, Repr

/-! ## Checksum and memory helpers -/

/-- The function `calculate_checksum(data, len)`: a `uint16_t` accumulator, starting at 0,
to which `data[i]` is added for `i = 0 .. len-1`. -/
def calculate_checksum (data : List Nat) (len : Nat) : Nat :=
  (List.range len).foldl (fun sum i => (sum + data.getD i 0) % 65536) 0

/-- The libc call `memcpy(dst + off, src, n)`: `n` byte stores, in index order. -/
def memcpy (dst : List Nat) (off : Nat) (src : List Nat) (n : Nat) : List Nat :=
  (List.range n).foldl (fun b j => b.set (off + j) (src.getD j 0)) dst

/-! ## Packet builders -/

/-- The function `build_a0_packet`. -/
def build_a0_packet (a0_data : ble_cmd_a0_t) (buffer : List Nat) (buffer_len : Nat) :
    Built ble_cmd_a0_t :=
  let required_len := 1 + 1 + 2
  if buffer_len < required_len then ⟨0, a0_data, buffer⟩
  else
    let buffer := buffer.set 0 a0_data.cmd
    let buffer := buffer.set 1 a0_data.gear
    let checksum := calculate_checksum buffer 2
    let a0_data := { a0_data with checksum := checksum }
    let buffer := buffer.set 2 ((checksum >>> 8) &&& 0xFF)
    let buffer := buffer.set 3 (checksum &&& 0xFF)
    ⟨required_len, a0_data, buffer⟩

/-- The function `build_a1_packet`. -/
def build_a1_packet (a1_data : ble_cmd_a1_t) (buffer : List Nat) (buffer_len : Nat) :
    Built ble_cmd_a1_t :=
  let required_len := 1 + 5 + 2
  if buffer_len < required_len then ⟨0, a1_data, buffer⟩
  else
    let buffer := buffer.set 0 a1_data.cmd
    let buffer := buffer.set 1 a1_data.play_mode
    let buffer := buffer.set 2 a1_data.total_lists
    let buffer := buffer.set 3 a1_data.current_list
    let buffer := buffer.set 4 a1_data.effect_count
    let buffer := buffer.set 5 a1_data.current_effect
    let checksum := calculate_checksum buffer 6
    let a1_data := { a1_data with checksum := checksum }
    let buffer := buffer.set 6 ((checksum >>> 8) &&& 0xFF)
    let buffer := buffer.set 7 (checksum &&& 0xFF)
    ⟨required_len, a1_data, buffer⟩

/-- The function `build_a2_packet`. The source also tests `!a2_data->type_list`;
`type_list` is an array member of the struct, so that test is never true. -/
def build_a2_packet (a2_data : ble_cmd_a2_t) (buffer : List Nat) (buffer_len : Nat) :
    Built ble_cmd_a2_t :=
  let required_len := 1 + 2 + 1 + 1 + 16 + 2
  if buffer_len < required_len then ⟨0, a2_data, buffer⟩
  else
    let buffer := buffer.set 0 a2_data.cmd
    let buffer := buffer.set 1 ((a2_data.total_bytes >>> 8) &&& 0xFF)
    let buffer := buffer.set 2 (a2_data.total_bytes &&& 0xFF)
    let buffer := buffer.set 3 a2_data.total_packets
    let buffer := buffer.set 4 a2_data.char_len
    let buffer := memcpy buffer 5 a2_data.type_list 16
    let checksum := calculate_checksum buffer (4 + 16)
    let a2_data := { a2_data with checksum := checksum }
    let buffer := buffer.set 21 ((checksum >>> 8) &&& 0xFF)
    let buffer := buffer.set 22 (checksum &&& 0xFF)
    ⟨required_len, a2_data, buffer⟩

/-- The function `build_a3_packet`. The source also tests `!a3_data->data`;
`data` is an array member of the struct, so that test is never true. -/
def build_a3_packet (a3_data : ble_cmd_a3_t) (buffer : List Nat) (buffer_len : Nat) :
    Built ble_cmd_a3_t :=
  let required_len := 1 + 1 + 1 + 64 + 2
  if buffer_len < required_len || a3_data.data_len > 64 then ⟨0, a3_data, buffer⟩
  else
    let buffer := buffer.set 0 a3_data.cmd
    let buffer := buffer.set 1 a3_data.packet_num
    let buffer := buffer.set 2 a3_data.data_len
    let buffer := memcpy buffer 3 a3_data.data 64
    let checksum := calculate_checksum (buffer.drop 3) 64
    let a3_data := { a3_data with data_checksum := checksum }
    let buffer := buffer.set 67 ((checksum >>> 8) &&& 0xFF)
    let buffer := buffer.set 68 (checksum &&& 0xFF)
    ⟨required_len, a3_data, buffer⟩

/-! ## Delivery engine: shared state, transport and notifications -/

/-- The global `m_state` (the mutex, the condition variable and the connection
handle are not data; signals on the condition variable are recorded in the trace).
The two counters are C `int`s and are modelled as unbounded integers. -/
structure m_state_t where
  is_connected : Bool
  is_finished : Bool
  success_count : Int
  fail_count : Int
  last_send_success : Bool
  last_packet : Option (List Nat)
  last_packet_len : Nat
  waiting_feedback : Bool
deriving DecidableEq, Repr

/-- The calls the program makes on the transport and on the condition variable. -/
inductive Event where
  | write_char_by_uuid (data : List Nat)
  | write_char_by_handle (handle : Nat) (data : List Nat)
  | cond_timedwait
  | cond_signal
deriving DecidableEq, Repr

/-- One notification event as the callback sees it: the string that
`gattlib_uuid_to_string` produces for its UUID, the payload and its length. -/
structure Notification where
  uuid_str : String
  data : List Nat
  data_length : Nat
deriving DecidableEq, Repr

/-- What the outside world does during one loop iteration of `send_packet_with_retry`
that reaches the write: the result of the UUID-addressed write, the result of the
handle-addressed write (consulted only when the first failed), whether `malloc`
succeeds, the notification callbacks that run between the write and the moment the
lock is taken, those that run while `pthread_cond_timedwait` has released the lock,
and the value `pthread_cond_timedwait` returns. -/
structure Attempt where
  ret_uuid : Int
  ret_handle : Int
  malloc_ok : Bool
  early : List Notification
  during : List Notification
  cond_ret : Int
deriving DecidableEq, Repr

/-- The program state the delivery engine works on: `m_state`, the calls made so far
and the number of transport answers consumed so far. -/
structure World where
  m_state : m_state_t
  trace : List Event
  tick : Nat
deriving DecidableEq, Repr

/-- The function `notification_callback`, given the string form of the UUID. -/
def notification_callback (uuid_str : String) (data : List Nat) (data_length : Nat)
    (w : World) : World :=
  if uuid_str = NOTIFY_UUID then
    let flag :=
      if data_length ≥ 1 then
        if data.getD 0 0 = 0x01 then true
        else if data.getD 0 0 = 0x00 then false
        else decide (data.getD 0 0 = 0x01)
      else false
    { w with
      m_state := { w.m_state with last_send_success := flag }
      trace := w.trace ++ [Event.cond_signal] }
  else w

/-- Runs the callback on each notification of a list, in order. -/
def run_callbacks (ns : List Notification) (w : World) : World :=
  ns.foldl (fun w n => notification_callback n.uuid_str n.data n.data_length w) w

/-- The loop of `send_packet_with_retry`, with the loop variable `retries`; one unit
of fuel is spent per evaluation of the loop condition. A null connection is `none`. -/
def send_packet_with_retry_loop (connection : Option Nat) (data : List Nat) (len : Nat)
    (env : Nat → Attempt) : Nat → Nat → World → Option (Bool × World)
  | 0, _, _ => none
  | fuel + 1, retries, w =>
    if retries < MAX_RETRIES then
      if connection = none then some (false, w)
      else
        let a := env w.tick
        let w := { w with tick := w.tick + 1 }
        -- ret = gattlib_write_char_by_uuid(...)
        let w := { w with trace := w.trace ++ [Event.write_char_by_uuid (data.take len)] }
        let ret := a.ret_uuid
        -- if (ret != 0) ret = gattlib_write_char_by_handle(connection, 0x0023, ...)
        let w := if ret ≠ 0 then
          { w with trace := w.trace ++ [Event.write_char_by_handle 0x0023 (data.take len)] }
          else w
        let ret := if ret ≠ 0 then a.ret_handle else ret
        if ret ≠ 0 then
          send_packet_with_retry_loop connection data len env fuel (retries + 1) w
        else
          let w := run_callbacks a.early w
          -- lock; waiting_feedback = true; last_send_success = false
          let w := { w with m_state :=
            { w.m_state with waiting_feedback := true, last_send_success := false } }
          -- free(last_packet); last_packet = malloc(len); copy when non-null
          let w := { w with m_state :=
            if a.malloc_ok then
              { w.m_state with last_packet := some (data.take len), last_packet_len := len }
            else { w.m_state with last_packet := none } }
          -- pthread_cond_timedwait releases the lock, callbacks may run, then it returns
          let w := { w with trace := w.trace ++ [Event.cond_timedwait] }
          let w := run_callbacks a.during w
          let cond_ret := a.cond_ret
          let w := { w with m_state := { w.m_state with waiting_feedback := false } }
          let success := w.m_state.last_send_success
          if cond_ret = ETIMEDOUT then
            send_packet_with_retry_loop connection data len env fuel (retries + 1) w
          else if success then
            some (true, { w with m_state :=
              { w.m_state with success_count := w.m_state.success_count + 1 } })
          else
            send_packet_with_retry_loop connection data len env fuel (retries + 1) w
    else
      some (false, { w with m_state :=
        { w.m_state with fail_count := w.m_state.fail_count + 1 } })

/-- The function `send_packet_with_retry`: the loop entered with `retries = 0`. -/
def send_packet_with_retry (fuel : Nat) (connection : Option Nat) (data : List Nat)
    (len : Nat) (env : Nat → Attempt) (w : World) : Option (Bool × World) :=
  send_packet_with_retry_loop connection data len env fuel 0 w

/-! ## Vocabulary for the delivery claims -/

/-- An attempt whose write failed on the UUID path and on the handle path. -/
def Attempt.write_failed (a : Attempt) : Bool :=
  decide (a.ret_uuid ≠ 0) && decide (a.ret_handle ≠ 0)

/-- An attempt whose wait returned `ETIMEDOUT`. -/
def Attempt.timed_out (a : Attempt) : Bool :=
  decide (a.cond_ret = ETIMEDOUT)

/-- Whether a notification is a positive acknowledgement: non-empty, first byte `0x01`. -/
def Notification.is_positive (n : Notification) : Bool :=
  decide (1 ≤ n.data_length) && decide (n.data.getD 0 0 = 0x01)

/-- The last-outcome flag after a list of notifications, starting from `flag`:
each notification on the acknowledgement identifier overwrites it. -/
def outcome_flag (ns : List Notification) (flag : Bool) : Bool :=
  ns.foldl (fun b n => if n.uuid_str = NOTIFY_UUID then n.is_positive else b) flag

/-- An attempt that counts as delivered: the write went through on one of the two
paths, the wait did not time out, and the last-outcome flag at wake-up is true. -/
def Attempt.positive (a : Attempt) : Bool :=
  !a.write_failed && !a.timed_out && outcome_flag a.during false

/-- The state in which one loop iteration of `send_packet_with_retry` that reaches the
write leaves the program, before the iteration decides between returning and retrying:
the same statements as in the loop body, without the control flow. -/
def attempt_world (data : List Nat) (len : Nat) (a : Attempt) (w : World) : World :=
  let w := { w with tick := w.tick + 1 }
  let w := { w with trace := w.trace ++ [Event.write_char_by_uuid (data.take len)] }
  let w := if a.ret_uuid ≠ 0 then
    { w with trace := w.trace ++ [Event.write_char_by_handle 0x0023 (data.take len)] }
    else w
  if a.write_failed then w
  else
    let w := run_callbacks a.early w
    let w := { w with m_state :=
      { w.m_state with waiting_feedback := true, last_send_success := false } }
    let w := { w with m_state :=
      if a.malloc_ok then
        { w.m_state with last_packet := some (data.take len), last_packet_len := len }
      else { w.m_state with last_packet := none } }
    let w := { w with trace := w.trace ++ [Event.cond_timedwait] }
    let w := run_callbacks a.during w
    { w with m_state := { w.m_state with waiting_feedback := false } }

/-- The increment `m_state.success_count++`. -/
def World.count_success (w : World) : World :=
  { w with m_state := { w.m_state with success_count := w.m_state.success_count + 1 } }

/-- The increment `m_state.fail_count++`. -/
def World.count_fail (w : World) : World :=
  { w with m_state := { w.m_state with fail_count := w.m_state.fail_count + 1 } }

/-- Marks the UUID-addressed writes of a trace. -/
def Event.is_uuid_write : Event → Bool
  | .write_char_by_uuid _ => true
  | _ => false

/-- Marks the acknowledgement waits of a trace. -/
def Event.is_wait : Event → Bool
  | .cond_timedwait => true
  | _ => false

/-- The state of `m_state` after the initialisation in `main`. -/
def m_state_init : m_state_t :=
  { is_connected := false, is_finished := false, success_count := 0, fail_count := 0,
    last_send_success := false, last_packet := none, last_packet_len := 0,
    waiting_feedback := false }

/-- A transport on which every write goes through and every wait times out. -/
def env_timeouts : Nat → Attempt :=
  fun _ => { ret_uuid := 0, ret_handle := 0, malloc_ok := true, early := [], during := [],
             cond_ret := ETIMEDOUT }

/-- A transport that answers the first attempt with a timeout, the second with a
negative acknowledgement `0x00` and every later one with a positive acknowledgement
`0x01`; the UUID-addressed write fails throughout and the handle-addressed one works. -/
def env_third_acked : Nat → Attempt :=
  fun k =>
    if k = 0 then
      { ret_uuid := -1, ret_handle := 0, malloc_ok := true, early := [], during := [],
        cond_ret := ETIMEDOUT }
    else if k = 1 then
      { ret_uuid := -1, ret_handle := 0, malloc_ok := true, early := [],
        during := [⟨NOTIFY_UUID, [0x00], 1⟩], cond_ret := 0 }
    else
      { ret_uuid := -1, ret_handle := 0, malloc_ok := false, early := [],
        during := [⟨NOTIFY_UUID, [0x01], 1⟩], cond_ret := 0 }

/-- The program state right after the initialisation in `main`. -/
def world_init : World := { m_state := m_state_init, trace := [], tick := 0 }

/-! ## Segmented send (`send_a2_a3_combination`) -/

/-- The conditional expression of the chunk loop that computes `current_len`; the
comparison `i == a2_data->total_packets - 1` is made on C `int`s. -/
def current_len (total_packets data_len i : Nat) : Nat :=
  if (i : Int) = (total_packets : Int) - 1 then
    (if data_len % 64 ≠ 0 then data_len % 64 else 64)
  else 64

/-- One pass of the chunk loop of `send_a2_a3_combination`, from the declaration of
`a3_buffer` to the call of `build_a3_packet`. Here `data` is the memory at the pointer
`data` (the payload is its first `data_len` bytes, the rest is whatever follows it) and
`i` is the loop variable. The local `a3_buffer[70]` is uninitialised in the source;
the builder writes each of the 69 bytes that are sent before they are read. -/
def build_chunk (total_packets : Nat) (a3_data : ble_cmd_a3_t) (data : List Nat)
    (data_len i : Nat) : Built ble_cmd_a3_t :=
  let a3_buffer := List.replicate 70 0
  let current_len := current_len total_packets data_len i
  let a3_data := { a3_data with cmd := CMD_A3 }
  let a3_data := { a3_data with packet_num := (i + 1) % 256 }
  let a3_data := { a3_data with data_len := current_len % 256 }
  let a3_data := { a3_data with data := memcpy a3_data.data 0 (data.drop (i * 64)) 64 }
  build_a3_packet a3_data a3_buffer 70

/-- What `send_a2_a3_combination` leaves behind: its return value, the two structs it
was given by pointer, and the program state. -/
structure Sent where
  ret : Bool
  a2_data : ble_cmd_a2_t
  a3_data : ble_cmd_a3_t
  world : World
deriving DecidableEq, Repr

/-- The chunk loop of `send_a2_a3_combination`, with the `uint8_t` loop variable `i`;
one unit of `fuel` is spent per evaluation of the loop condition, and each call of
`send_packet_with_retry` gets `fuel_send`. -/
def send_a3_loop (fuel_send : Nat) (connection : Option Nat) (a2_data : ble_cmd_a2_t)
    (data : List Nat) (data_len : Nat) (env : Nat → Attempt) :
    Nat → Nat → ble_cmd_a3_t → World → Option Sent
  | 0, _, _, _ => none
  | fuel + 1, i, a3_data, w =>
    if i < a2_data.total_packets then
      let built := build_chunk a2_data.total_packets a3_data data data_len i
      let a3_data := built.cmd_data
      let a3_len := built.ret
      if a3_len = 0 then some ⟨false, a2_data, a3_data, w⟩
      else
        match send_packet_with_retry fuel_send connection built.buffer a3_len env w with
        | none => none
        | some (ok, w) =>
          if !ok then some ⟨false, a2_data, a3_data, w⟩
          else
            send_a3_loop fuel_send connection a2_data data data_len env fuel
              ((i + 1) % 256) a3_data w
    else some ⟨true, a2_data, a3_data, w⟩

/-- The function `send_a2_a3_combination`. The local `a2_buffer[23]` is uninitialised
in the source; the builder writes all 23 bytes before they are read. -/
def send_a2_a3_combination (fuel : Nat) (connection : Option Nat) (a2_data : ble_cmd_a2_t)
    (a3_data : ble_cmd_a3_t) (data : List Nat) (data_len : Nat) (env : Nat → Attempt)
    (w : World) : Option Sent :=
  let a2_buffer := List.replicate 23 0
  let built := build_a2_packet a2_data a2_buffer 23
  let a2_data := built.cmd_data
  let a2_len := built.ret
  if a2_len = 0 then some ⟨false, a2_data, a3_data, w⟩
  else
    match send_packet_with_retry fuel connection built.buffer a2_len env w with
    | none => none
    | some (ok, w) =>
      if !ok then some ⟨false, a2_data, a3_data, w⟩
      else send_a3_loop fuel connection a2_data data data_len env fuel 0 a3_data w

/-! ## Vocabulary for the segmentation claims -/

/-- The bytes of the header packet that `send_a2_a3_combination` hands to
`send_packet_with_retry`. -/
def header_packet (a2_data : ble_cmd_a2_t) : List Nat :=
  (build_a2_packet a2_data (List.replicate 23 0) 23).buffer.take 23

/-- The bytes of the chunk packet that pass `i` of the chunk loop hands to
`send_packet_with_retry` (the struct's `data` array has 64 cells, its other fields are
overwritten by the loop body). -/
def chunk_packet (total_packets : Nat) (data : List Nat) (data_len i : Nat) : List Nat :=
  (build_chunk total_packets ⟨0, 0, 0, List.replicate 64 0, 0⟩ data data_len i).buffer.take 69

/-- The all-or-nothing delivery of a sequence of packets in the words of the
specification: each packet is handed to `send_packet_with_retry` in order, the first
failure ends the sequence with failure in the state that call left, and the sequence
succeeds when every packet was delivered. -/
def deliver_sequence (fuel : Nat) (connection : Option Nat) (env : Nat → Attempt) :
    List (List Nat) → World → Option (Bool × World)
  | [], w => some (true, w)
  | p :: ps, w =>
    match send_packet_with_retry fuel connection p p.length env w with
    | none => none
    | some (ok, w) =>
      if ok then deliver_sequence fuel connection env ps w else some (false, w)

/-- The packets of a segmented send, in order: the header, then one chunk packet for
each `i` below `total_packets`. -/
def combination_packets (a2_data : ble_cmd_a2_t) (data : List Nat) (data_len : Nat) :
    List (List Nat) :=
  header_packet a2_data ::
    (List.range a2_data.total_packets).map
      (fun i => chunk_packet a2_data.total_packets data data_len i)

/-- The packet a transport call carries, if it is a write. -/
def Event.packet : Event → Option (List Nat)
  | .write_char_by_uuid d => some d
  | .write_char_by_handle _ d => some d
  | _ => none

/-- The number of chunks a payload of `len` bytes needs: `ceil(len / 64)`. -/
def chunks_needed (len : Nat) : Nat := (len + 63) / 64

/-- A transport on which every write goes through on the UUID path and every wait is
ended by a positive acknowledgement. -/
def env_acked : Nat → Attempt :=
  fun _ => { ret_uuid := 0, ret_handle := 0, malloc_ok := true, early := [],
             during := [⟨NOTIFY_UUID, [0x01], 1⟩], cond_ret := 0 }

/-- The program state with the last-outcome flag blanked: everything
`send_packet_with_retry` and the callback keep apart from `last_send_success`. -/
def World.forget_flag (w : World) : World :=
  { w with m_state := { w.m_state with last_send_success := false } }

/-- The program state with the last-outcome flag set to `flag`. -/
def World.with_flag (w : World) (flag : Bool) : World :=
  { w with m_state := { w.m_state with last_send_success := flag } }

/-- A transport on which the first attempt cannot be written on either path and every
later attempt is written on the UUID path and positively acknowledged. -/
def env_first_write_fails : Nat → Attempt :=
  fun k =>
    if k = 0 then
      { ret_uuid := -1, ret_handle := -5, malloc_ok := true, early := [], during := [],
        cond_ret := 0 }
    else
      { ret_uuid := 0, ret_handle := 0, malloc_ok := true, early := [],
        during := [⟨NOTIFY_UUID, [0x01], 1⟩], cond_ret := 0 }

/-- A header struct as a caller fills it for a 100-byte payload: two chunks. -/
def a2_demo : ble_cmd_a2_t :=
  { cmd := CMD_A2, total_bytes := 100, total_packets := 2, char_len := 8,
    type_list := [1, 1, 1, 1, 0, 0, 0, 0, 0, 0, 0, 0, 0, 0, 0, 0], checksum := 0 }

/-- A chunk struct with a zeroed 64-byte `data` array. -/
def a3_blank : ble_cmd_a3_t :=
  { cmd := 0, packet_num := 0, data_len := 0, data := List.replicate 64 0,
    data_checksum := 0 }

/-- A header struct whose caller declared 5 bytes and 2 chunks for a 1-byte payload. -/
def a2_mismatch : ble_cmd_a2_t :=
  { cmd := CMD_A2, total_bytes := 5, total_packets := 2, char_len := 8,
    type_list := [1, 1, 1, 1, 0, 0, 0, 0, 0, 0, 0, 0, 0, 0, 0, 0], checksum := 0 }

/-- A header struct for a 16321-byte payload: `ceil(16321 / 64) = 256` does not fit the
`uint8_t` field `total_packets`, which then holds `256 mod 256 = 0`. -/
def a2_oversize : ble_cmd_a2_t :=
  { cmd := CMD_A2, total_bytes := 16321, total_packets := 0, char_len := 8,
    type_list := [1, 1, 1, 1, 0, 0, 0, 0, 0, 0, 0, 0, 0, 0, 0, 0], checksum := 0 }

/-! ## MAC address comparison (`ble_test.c`) -/

/-- The libc function `toupper` in the C locale, on character codes. -/
def toupper (c : Nat) : Nat :=
  if 97 ≤ c ∧ c ≤ 122 then c - 32 else c

/-- The function `mac_compare` of `ble_test.c`. A C string is the list of its character
codes before the terminating NUL (none of them is 0); the code of `':'` is 58. The loop
runs while both strings have a character left; afterwards `*mac1 == *mac2` holds exactly
when both strings are at their end. -/
def mac_compare : List Nat → List Nat → Nat
  | c1 :: mac1, c2 :: mac2 =>
    if c1 = 58 then mac_compare mac1 mac2
    else if toupper c1 ≠ toupper c2 then 1
    else mac_compare mac1 mac2
  | [], [] => 0
  | [], _ :: _ => 1
  | _ :: _, [] => 1

/-- Equality of two strings when ASCII letter case is ignored: same length and equal
character by character after `toupper`. -/
def eq_ignoring_case (a b : List Nat) : Bool :=
  decide (a.length = b.length) && decide (a.map toupper = b.map toupper)

/-- A chunk struct whose 64 data bytes are all `0xFF`: the largest data sum. -/
def a3_all_ff : ble_cmd_a3_t :=
  { cmd := CMD_A3, packet_num := 1, data_len := 64, data := List.replicate 64 0xFF,
    data_checksum := 0 }

theorem calculate_checksum_take (data : List Nat) (len : Nat) :
    calculate_checksum data len = (data.take len).sum % 65536 := by
  unfold calculate_checksum
  induction len with
  | zero => simp
  | succ n ih =>
    rw [List.range_succ, List.foldl_append, ih, List.take_succ]
    cases h : data[n]? with
    | none => simp [List.getD, h]
    | some x => simp [List.getD, h, Nat.add_mod]


theorem set_after_front (xs rest : List Nat) (k a : Nat) (hk : xs.length = k)
    (h : 0 < rest.length) : (xs ++ rest).set k a = xs ++ a :: rest.drop 1 := by
  subst hk
  cases rest with
  | nil => simp at h
  | cons b t => simp [List.set_append]

theorem memcpy_after_front (xs rest src : List Nat) (k n : Nat) (hk : xs.length = k)
    (hn : n ≤ rest.length) (hs : n ≤ src.length) :
    memcpy (xs ++ rest) k src n = xs ++ (src.take n ++ rest.drop n) := by
  unfold memcpy
  induction n with
  | zero => simp
  | succ m ih =>
    rw [List.range_succ, List.foldl_append, ih (by omega) (by omega)]
    simp only [List.foldl_cons, List.foldl_nil]
    have hm : m < src.length := by omega
    have h1 : (xs ++ (List.take m src ++ List.drop m rest)).set (k + m) (src.getD m 0)
        = (xs ++ List.take m src) ++ src.getD m 0 :: (List.drop m rest).drop 1 := by
      rw [← List.append_assoc]
      exact set_after_front _ _ _ _ (by simp [hk]; omega) (by simp; omega)
    rw [h1]
    have hg : src.getD m 0 = src[m] := by
      rw [List.getD_eq_getElem?_getD, List.getElem?_eq_getElem hm]; rfl
    have ht : List.take (m + 1) src = List.take m src ++ [src[m]] := by
      rw [List.take_succ, List.getElem?_eq_getElem hm]; rfl
    rw [hg, ht, List.drop_drop]
    simp only [List.append_assoc, List.singleton_append, Nat.add_comm]

theorem shift_mask_hi (s : Nat) (h : s < 65536) : (s >>> 8) &&& 0xFF = s / 256 := by
  have h1 : (s >>> 8) &&& 0xFF = (s >>> 8) % 256 := Nat.and_pow_two_sub_one_eq_mod _ 8
  rw [h1, Nat.shiftRight_eq_div_pow]
  omega

theorem mask_lo (s : Nat) : s &&& 0xFF = s % 256 :=
  Nat.and_pow_two_sub_one_eq_mod s 8

theorem build_a0_packet_eq (a0_data : ble_cmd_a0_t) (buffer : List Nat) (buffer_len : Nat)
    (h4 : 4 ≤ buffer_len) (hlen : buffer_len ≤ buffer.length) :
    build_a0_packet a0_data buffer buffer_len =
      ⟨4, { a0_data with checksum := (a0_data.cmd + a0_data.gear) % 65536 },
        [a0_data.cmd, a0_data.gear,
          (((a0_data.cmd + a0_data.gear) % 65536) >>> 8) &&& 0xFF,
          ((a0_data.cmd + a0_data.gear) % 65536) &&& 0xFF] ++ buffer.drop 4⟩ := by
  have e0 : buffer.set 0 a0_data.cmd = [a0_data.cmd] ++ buffer.drop 1 := by
    simpa using set_after_front [] buffer 0 a0_data.cmd rfl (by omega)
  have e1 : ([a0_data.cmd] ++ buffer.drop 1).set 1 a0_data.gear
      = [a0_data.cmd, a0_data.gear] ++ buffer.drop 2 := by
    simpa using set_after_front [a0_data.cmd] (buffer.drop 1) 1 a0_data.gear rfl
      (by simp; omega)
  have ec : calculate_checksum ([a0_data.cmd, a0_data.gear] ++ buffer.drop 2) 2
      = (a0_data.cmd + a0_data.gear) % 65536 := by
    rw [calculate_checksum_take]; simp
  have e2 : ∀ v, ([a0_data.cmd, a0_data.gear] ++ buffer.drop 2).set 2 v
      = [a0_data.cmd, a0_data.gear, v] ++ buffer.drop 3 := by
    intro v
    simpa using set_after_front [a0_data.cmd, a0_data.gear] (buffer.drop 2) 2 v rfl
      (by simp; omega)
  have e3 : ∀ u v, ([a0_data.cmd, a0_data.gear, u] ++ buffer.drop 3).set 3 v
      = [a0_data.cmd, a0_data.gear, u, v] ++ buffer.drop 4 := by
    intro u v
    simpa using set_after_front [a0_data.cmd, a0_data.gear, u] (buffer.drop 3) 3 v rfl
      (by simp; omega)
  unfold build_a0_packet
  rw [if_neg (by omega)]
  simp only [e0, e1, ec, e2, e3]

theorem calculate_checksum_append_left (xs rest : List Nat) (n : Nat) (h : n ≤ xs.length) :
    calculate_checksum (xs ++ rest) n = calculate_checksum xs n := by
  rw [calculate_checksum_take, calculate_checksum_take, List.take_append_of_le_length h]

theorem build_a1_packet_eq (a1_data : ble_cmd_a1_t) (buffer : List Nat) (buffer_len : Nat)
    (h8 : 8 ≤ buffer_len) (hlen : buffer_len ≤ buffer.length) :
    build_a1_packet a1_data buffer buffer_len =
      ⟨8, { a1_data with checksum := (calculate_checksum
              [a1_data.cmd, a1_data.play_mode, a1_data.total_lists, a1_data.current_list,
                a1_data.effect_count, a1_data.current_effect] 6) },
        [a1_data.cmd, a1_data.play_mode, a1_data.total_lists, a1_data.current_list,
          a1_data.effect_count, a1_data.current_effect,
          ((calculate_checksum
              [a1_data.cmd, a1_data.play_mode, a1_data.total_lists, a1_data.current_list,
                a1_data.effect_count, a1_data.current_effect] 6) >>> 8) &&& 0xFF,
          (calculate_checksum
              [a1_data.cmd, a1_data.play_mode, a1_data.total_lists, a1_data.current_list,
                a1_data.effect_count, a1_data.current_effect] 6) &&& 0xFF]
          ++ buffer.drop 8⟩ := by
  have e0 : ∀ v, buffer.set 0 v = [v] ++ buffer.drop 1 := fun v => by
    simpa using set_after_front [] buffer 0 v rfl (by omega)
  have e1 : ∀ a v, ([a] ++ buffer.drop 1).set 1 v = [a, v] ++ buffer.drop 2 := fun a v => by
    simpa using set_after_front [a] (buffer.drop 1) 1 v rfl (by simp; omega)
  have e2 : ∀ a b v, ([a, b] ++ buffer.drop 2).set 2 v = [a, b, v] ++ buffer.drop 3 :=
    fun a b v => by
      simpa using set_after_front [a, b] (buffer.drop 2) 2 v rfl (by simp; omega)
  have e3 : ∀ a b c v, ([a, b, c] ++ buffer.drop 3).set 3 v
      = [a, b, c, v] ++ buffer.drop 4 := fun a b c v => by
    simpa using set_after_front [a, b, c] (buffer.drop 3) 3 v rfl (by simp; omega)
  have e4 : ∀ a b c d v, ([a, b, c, d] ++ buffer.drop 4).set 4 v
      = [a, b, c, d, v] ++ buffer.drop 5 := fun a b c d v => by
    simpa using set_after_front [a, b, c, d] (buffer.drop 4) 4 v rfl (by simp; omega)
  have e5 : ∀ a b c d e v, ([a, b, c, d, e] ++ buffer.drop 5).set 5 v
      = [a, b, c, d, e, v] ++ buffer.drop 6 := fun a b c d e v => by
    simpa using set_after_front [a, b, c, d, e] (buffer.drop 5) 5 v rfl (by simp; omega)
  have e6 : ∀ a b c d e f v, ([a, b, c, d, e, f] ++ buffer.drop 6).set 6 v
      = [a, b, c, d, e, f, v] ++ buffer.drop 7 := fun a b c d e f v => by
    simpa using set_after_front [a, b, c, d, e, f] (buffer.drop 6) 6 v rfl (by simp; omega)
  have e7 : ∀ a b c d e f g v, ([a, b, c, d, e, f, g] ++ buffer.drop 7).set 7 v
      = [a, b, c, d, e, f, g, v] ++ buffer.drop 8 := fun a b c d e f g v => by
    simpa using set_after_front [a, b, c, d, e, f, g] (buffer.drop 7) 7 v rfl (by simp; omega)
  have ec : ∀ a b c d e f : Nat, calculate_checksum ([a, b, c, d, e, f] ++ buffer.drop 6) 6
      = calculate_checksum [a, b, c, d, e, f] 6 := fun a b c d e f =>
    calculate_checksum_append_left _ _ 6 (by simp)
  unfold build_a1_packet
  rw [if_neg (by omega)]
  simp only [e0, e1, e2, e3, e4, e5, ec, e6, e7]

theorem build_a2_packet_eq (a2_data : ble_cmd_a2_t) (buffer : List Nat) (buffer_len : Nat)
    (h23 : 23 ≤ buffer_len) (hlen : buffer_len ≤ buffer.length)
    (htl : a2_data.type_list.length = 16) :
    build_a2_packet a2_data buffer buffer_len =
      ⟨23, { a2_data with checksum := (calculate_checksum
              ([a2_data.cmd, (a2_data.total_bytes >>> 8) &&& 0xFF, a2_data.total_bytes &&& 0xFF,
                a2_data.total_packets, a2_data.char_len] ++ a2_data.type_list) 20) },
        [a2_data.cmd, (a2_data.total_bytes >>> 8) &&& 0xFF, a2_data.total_bytes &&& 0xFF,
            a2_data.total_packets, a2_data.char_len] ++ a2_data.type_list
          ++ [((calculate_checksum
              ([a2_data.cmd, (a2_data.total_bytes >>> 8) &&& 0xFF, a2_data.total_bytes &&& 0xFF,
                a2_data.total_packets, a2_data.char_len] ++ a2_data.type_list) 20) >>> 8)
                  &&& 0xFF,
              (calculate_checksum
              ([a2_data.cmd, (a2_data.total_bytes >>> 8) &&& 0xFF, a2_data.total_bytes &&& 0xFF,
                a2_data.total_packets, a2_data.char_len] ++ a2_data.type_list) 20) &&& 0xFF]
          ++ buffer.drop 23⟩ := by
  have e0 : ∀ v, buffer.set 0 v = [v] ++ buffer.drop 1 := fun v => by
    simpa using set_after_front [] buffer 0 v rfl (by omega)
  have e1 : ∀ a v, ([a] ++ buffer.drop 1).set 1 v = [a, v] ++ buffer.drop 2 := fun a v => by
    simpa using set_after_front [a] (buffer.drop 1) 1 v rfl (by simp; omega)
  have e2 : ∀ a b v, ([a, b] ++ buffer.drop 2).set 2 v = [a, b, v] ++ buffer.drop 3 :=
    fun a b v => by
      simpa using set_after_front [a, b] (buffer.drop 2) 2 v rfl (by simp; omega)
  have e3 : ∀ a b c v, ([a, b, c] ++ buffer.drop 3).set 3 v
      = [a, b, c, v] ++ buffer.drop 4 := fun a b c v => by
    simpa using set_after_front [a, b, c] (buffer.drop 3) 3 v rfl (by simp; omega)
  have e4 : ∀ a b c d v, ([a, b, c, d] ++ buffer.drop 4).set 4 v
      = [a, b, c, d, v] ++ buffer.drop 5 := fun a b c d v => by
    simpa using set_after_front [a, b, c, d] (buffer.drop 4) 4 v rfl (by simp; omega)
  have em : ∀ a b c d e : Nat,
      memcpy ([a, b, c, d, e] ++ buffer.drop 5) 5 a2_data.type_list 16
        = ([a, b, c, d, e] ++ a2_data.type_list) ++ buffer.drop 21 := fun a b c d e => by
    rw [memcpy_after_front [a, b, c, d, e] (buffer.drop 5) a2_data.type_list 5 16 rfl
      (by simp; omega) (by omega)]
    rw [List.take_of_length_le (by omega), List.drop_drop, List.append_assoc]
  have ec : ∀ xs : List Nat, xs.length = 21 →
      calculate_checksum (xs ++ buffer.drop 21) (4 + 16) = calculate_checksum xs 20 :=
    fun xs hx => calculate_checksum_append_left xs _ 20 (by omega)
  have e21 : ∀ xs : List Nat, xs.length = 21 → ∀ v,
      (xs ++ buffer.drop 21).set 21 v = (xs ++ [v]) ++ buffer.drop 22 := fun xs hx v => by
    simpa using set_after_front xs (buffer.drop 21) 21 v hx (by simp; omega)
  have e22 : ∀ xs : List Nat, xs.length = 22 → ∀ v,
      (xs ++ buffer.drop 22).set 22 v = (xs ++ [v]) ++ buffer.drop 23 := fun xs hx v => by
    simpa using set_after_front xs (buffer.drop 22) 22 v hx (by simp; omega)
  unfold build_a2_packet
  rw [if_neg (by omega)]
  simp only [e0, e1, e2, e3, e4]
  rw [em]
  simp only [ec _ (show ([a2_data.cmd, (a2_data.total_bytes >>> 8) &&& 0xFF,
      a2_data.total_bytes &&& 0xFF, a2_data.total_packets, a2_data.char_len]
        ++ a2_data.type_list).length = 21 by simp [htl])]
  rw [e21 _ (by simp [htl]), e22 _ (by simp [htl])]
  simp

theorem build_a3_packet_eq (a3_data : ble_cmd_a3_t) (buffer : List Nat) (buffer_len : Nat)
    (h69 : 69 ≤ buffer_len) (hlen : buffer_len ≤ buffer.length)
    (hdl : a3_data.data_len ≤ 64) (hd : a3_data.data.length = 64) :
    build_a3_packet a3_data buffer buffer_len =
      ⟨69, { a3_data with data_checksum := calculate_checksum a3_data.data 64 },
        [a3_data.cmd, a3_data.packet_num, a3_data.data_len] ++ a3_data.data
          ++ [((calculate_checksum a3_data.data 64) >>> 8) &&& 0xFF,
              (calculate_checksum a3_data.data 64) &&& 0xFF]
          ++ buffer.drop 69⟩ := by
  have e0 : ∀ v, buffer.set 0 v = [v] ++ buffer.drop 1 := fun v => by
    simpa using set_after_front [] buffer 0 v rfl (by omega)
  have e1 : ∀ a v, ([a] ++ buffer.drop 1).set 1 v = [a, v] ++ buffer.drop 2 := fun a v => by
    simpa using set_after_front [a] (buffer.drop 1) 1 v rfl (by simp; omega)
  have e2 : ∀ a b v, ([a, b] ++ buffer.drop 2).set 2 v = [a, b, v] ++ buffer.drop 3 :=
    fun a b v => by
      simpa using set_after_front [a, b] (buffer.drop 2) 2 v rfl (by simp; omega)
  have em : ∀ a b c : Nat,
      memcpy ([a, b, c] ++ buffer.drop 3) 3 a3_data.data 64
        = ([a, b, c] ++ a3_data.data) ++ buffer.drop 67 := fun a b c => by
    rw [memcpy_after_front [a, b, c] (buffer.drop 3) a3_data.data 3 64 rfl
      (by simp; omega) (by omega)]
    rw [List.take_of_length_le (by omega), List.drop_drop, List.append_assoc]
  have ed : ∀ a b c : Nat, (([a, b, c] ++ a3_data.data) ++ buffer.drop 67).drop 3
      = a3_data.data ++ buffer.drop 67 := fun a b c => by simp
  have ec : calculate_checksum (a3_data.data ++ buffer.drop 67) 64
      = calculate_checksum a3_data.data 64 :=
    calculate_checksum_append_left _ _ 64 (by omega)
  have e67 : ∀ xs : List Nat, xs.length = 67 → ∀ v,
      (xs ++ buffer.drop 67).set 67 v = (xs ++ [v]) ++ buffer.drop 68 := fun xs hx v => by
    simpa using set_after_front xs (buffer.drop 67) 67 v hx (by simp; omega)
  have e68 : ∀ xs : List Nat, xs.length = 68 → ∀ v,
      (xs ++ buffer.drop 68).set 68 v = (xs ++ [v]) ++ buffer.drop 69 := fun xs hx v => by
    simpa using set_after_front xs (buffer.drop 68) 68 v hx (by simp; omega)
  unfold build_a3_packet
  rw [if_neg (by simp; omega)]
  simp only [e0, e1, e2]
  rw [em]
  simp only [ed, ec]
  rw [e67 _ (by simp [hd]), e68 _ (by simp [hd])]
  simp

theorem hi_byte_of_u16 (s : Nat) (h : s < 65536) : (s >>> 8) &&& 0xFF = s >>> 8 := by
  rw [shift_mask_hi s h, Nat.shiftRight_eq_div_pow]

theorem calculate_checksum_lt (data : List Nat) (len : Nat) :
    calculate_checksum data len < 65536 := by
  rw [calculate_checksum_take]
  exact Nat.mod_lt _ (by decide)

/-! ## Checksum and packet codec: the claims -/

/-- C1: for every byte sequence `d`, `calculate_checksum(d, len(d))` is the sum of all
bytes of `d`, as unsigned values, reduced modulo 65536. -/
theorem calculate_checksum_eq_sum_mod (d : List Nat) :
    calculate_checksum d d.length = d.sum % 65536 := by
  rw [calculate_checksum_take, List.take_length]

/-- C2: for every gear `g` and every `buffer_len >= 4` (a length the buffer really has),
`build_a0_packet` on `cmd = 0xA0, gear = g` returns 4 and leaves
`[0xA0, g, s >> 8, s & 0xFF]` in `buffer[0..3]`, where `s = (0xA0 + g) mod 65536` is the
checksum of the first two bytes; for `g = 3` the bytes are `[0xA0, 0x03, 0x00, 0xA3]`. -/
theorem build_a0_packet_gear (g cs0 : Nat) (buffer : List Nat) (buffer_len : Nat)
    (h4 : 4 ≤ buffer_len) (hlen : buffer_len ≤ buffer.length) :
    (build_a0_packet ⟨CMD_A0, g, cs0⟩ buffer buffer_len).ret = 4 ∧
    (build_a0_packet ⟨CMD_A0, g, cs0⟩ buffer buffer_len).buffer.take 4
      = [0xA0, g, ((0xA0 + g) % 65536) >>> 8, ((0xA0 + g) % 65536) &&& 0xFF] ∧
    calculate_checksum [0xA0, g] 2 = (0xA0 + g) % 65536 ∧
    (g = 3 → (build_a0_packet ⟨CMD_A0, g, cs0⟩ buffer buffer_len).buffer.take 4
      = [0xA0, 0x03, 0x00, 0xA3]) := by
  rw [build_a0_packet_eq _ _ _ h4 hlen]
  have hs : (0xA0 + g) % 65536 < 65536 := Nat.mod_lt _ (by decide)
  refine ⟨rfl, ?_, ?_, ?_⟩
  · simp [CMD_A0, hi_byte_of_u16 _ hs]
  · rw [calculate_checksum_take]; simp
  · rintro rfl
    simp only [CMD_A0, hi_byte_of_u16 _ hs, List.cons_append, List.nil_append,
      List.take_succ_cons, List.take_zero]
    decide

/-- Witness for C2: gear 3 into a 4-byte buffer. -/
theorem build_a0_packet_gear_witness :
    4 ≤ 4 ∧ 4 ≤ [0, 0, 0, 0].length ∧
    (build_a0_packet ⟨CMD_A0, 3, 0⟩ [0, 0, 0, 0] 4).ret = 4 ∧
    (build_a0_packet ⟨CMD_A0, 3, 0⟩ [0, 0, 0, 0] 4).buffer.take 4
      = [0xA0, 3, ((0xA0 + 3) % 65536) >>> 8, ((0xA0 + 3) % 65536) &&& 0xFF] ∧
    calculate_checksum [0xA0, 3] 2 = (0xA0 + 3) % 65536 ∧
    (3 = 3 → (build_a0_packet ⟨CMD_A0, 3, 0⟩ [0, 0, 0, 0] 4).buffer.take 4
      = [0xA0, 0x03, 0x00, 0xA3]) :=
  ⟨by decide, by decide, build_a0_packet_gear 3 0 [0, 0, 0, 0] 4 (by decide) (by decide)⟩

/-- C3 (as stated, refuted): on `cmd = 0xA1, play_mode = 1, total_lists = 5,
current_list = 2, effect_count = 10, current_effect = 3` with an 8-byte buffer,
`build_a1_packet` does not write `[0xA1, 0x01, 0x05, 0x02, 0x0A, 0x03, 0x00, 0xBC]`,
and the checksum it stores is not `0x00BC`. -/
theorem build_a1_packet_scenario_not_bc :
    ¬ ((build_a1_packet ⟨CMD_A1, 1, 5, 2, 10, 3, 0⟩ [0, 0, 0, 0, 0, 0, 0, 0] 8).ret = 8 ∧
       (build_a1_packet ⟨CMD_A1, 1, 5, 2, 10, 3, 0⟩ [0, 0, 0, 0, 0, 0, 0, 0] 8).buffer
          = [0xA1, 0x01, 0x05, 0x02, 0x0A, 0x03, 0x00, 0xBC]) ∧
    (build_a1_packet ⟨CMD_A1, 1, 5, 2, 10, 3, 0⟩ [0, 0, 0, 0, 0, 0, 0, 0] 8).cmd_data.checksum
      ≠ 0x00BC := by
  decide

/-- C3 (amended): `build_a1_packet` on `cmd = 0xA1, play_mode = 1, total_lists = 5,
current_list = 2, effect_count = 10, current_effect = 3` with an 8-byte buffer returns 8
and writes exactly `[0xA1, 0x01, 0x05, 0x02, 0x0A, 0x03, 0x00, 0xB6]`; the checksum of
the packet is `0x00B6 = 0xA1 + 0x01 + 0x05 + 0x02 + 0x0A + 0x03`. -/
theorem build_a1_packet_scenario (cs0 : Nat) (buffer : List Nat) (h8 : buffer.length = 8) :
    (build_a1_packet ⟨CMD_A1, 1, 5, 2, 10, 3, cs0⟩ buffer 8).ret = 8 ∧
    (build_a1_packet ⟨CMD_A1, 1, 5, 2, 10, 3, cs0⟩ buffer 8).buffer
      = [0xA1, 0x01, 0x05, 0x02, 0x0A, 0x03, 0x00, 0xB6] ∧
    (build_a1_packet ⟨CMD_A1, 1, 5, 2, 10, 3, cs0⟩ buffer 8).cmd_data.checksum = 0x00B6 ∧
    0xA1 + 0x01 + 0x05 + 0x02 + 0x0A + 0x03 = 0x00B6 := by
  rw [build_a1_packet_eq _ _ _ (le_refl 8) (by omega)]
  have hd : buffer.drop 8 = [] := List.drop_of_length_le (by omega)
  have hc : calculate_checksum [CMD_A1, 1, 5, 2, 10, 3] 6 = 0xB6 := by decide
  simp only [hc, hd]
  refine ⟨trivial, by decide, trivial, by decide⟩

/-- Witness for C3 (amended): the scenario on a zeroed 8-byte buffer. -/
theorem build_a1_packet_scenario_witness :
    [0, 0, 0, 0, 0, 0, 0, 0].length = 8 ∧
    (build_a1_packet ⟨CMD_A1, 1, 5, 2, 10, 3, 0⟩ [0, 0, 0, 0, 0, 0, 0, 0] 8).ret = 8 ∧
    (build_a1_packet ⟨CMD_A1, 1, 5, 2, 10, 3, 0⟩ [0, 0, 0, 0, 0, 0, 0, 0] 8).buffer
      = [0xA1, 0x01, 0x05, 0x02, 0x0A, 0x03, 0x00, 0xB6] ∧
    (build_a1_packet ⟨CMD_A1, 1, 5, 2, 10, 3, 0⟩ [0, 0, 0, 0, 0, 0, 0, 0] 8).cmd_data.checksum
      = 0x00B6 ∧
    0xA1 + 0x01 + 0x05 + 0x02 + 0x0A + 0x03 = 0x00B6 :=
  ⟨by decide, build_a1_packet_scenario 0 [0, 0, 0, 0, 0, 0, 0, 0] (by decide)⟩

/-- C4: for every input struct and every `buffer_len >= 8` (a length the buffer really
has), `build_a1_packet` returns 8, writes `cmd, play_mode, total_lists, current_list,
effect_count, current_effect` at offsets 0..5 in that order, and writes at offsets 6..7
the big-endian 16-bit additive checksum of exactly the six bytes at offsets 0..5. -/
theorem build_a1_packet_layout (a1_data : ble_cmd_a1_t) (buffer : List Nat)
    (buffer_len : Nat) (h8 : 8 ≤ buffer_len) (hlen : buffer_len ≤ buffer.length) :
    (build_a1_packet a1_data buffer buffer_len).ret = 8 ∧
    (build_a1_packet a1_data buffer buffer_len).buffer.take 6
      = [a1_data.cmd, a1_data.play_mode, a1_data.total_lists, a1_data.current_list,
          a1_data.effect_count, a1_data.current_effect] ∧
    ((build_a1_packet a1_data buffer buffer_len).buffer.drop 6).take 2
      = [((build_a1_packet a1_data buffer buffer_len).buffer.take 6).sum % 65536 / 256,
         ((build_a1_packet a1_data buffer buffer_len).buffer.take 6).sum % 65536 % 256] ∧
    ((build_a1_packet a1_data buffer buffer_len).buffer.take 6).sum % 65536
      = (a1_data.cmd + a1_data.play_mode + a1_data.total_lists + a1_data.current_list
          + a1_data.effect_count + a1_data.current_effect) % 65536 := by
  rw [build_a1_packet_eq _ _ _ h8 hlen]
  have hc := calculate_checksum_take [a1_data.cmd, a1_data.play_mode, a1_data.total_lists,
    a1_data.current_list, a1_data.effect_count, a1_data.current_effect] 6
  have hlt := calculate_checksum_lt [a1_data.cmd, a1_data.play_mode, a1_data.total_lists,
    a1_data.current_list, a1_data.effect_count, a1_data.current_effect] 6
  refine ⟨rfl, by simp, ?_, ?_⟩
  · simp only [shift_mask_hi _ hlt, mask_lo]
    rw [hc]
    simp
  · simp [Nat.add_assoc]

/-- Witness for C4: a struct with distinct field values and a 10-byte buffer. -/
theorem build_a1_packet_layout_witness :
    8 ≤ 9 ∧ 9 ≤ [9, 9, 9, 9, 9, 9, 9, 9, 9, 9].length ∧
    (build_a1_packet ⟨0xA1, 255, 254, 253, 252, 251, 7⟩ [9, 9, 9, 9, 9, 9, 9, 9, 9, 9] 9).ret
      = 8 ∧
    (build_a1_packet ⟨0xA1, 255, 254, 253, 252, 251, 7⟩
        [9, 9, 9, 9, 9, 9, 9, 9, 9, 9] 9).buffer.take 6
      = [0xA1, 255, 254, 253, 252, 251] ∧
    ((build_a1_packet ⟨0xA1, 255, 254, 253, 252, 251, 7⟩
        [9, 9, 9, 9, 9, 9, 9, 9, 9, 9] 9).buffer.drop 6).take 2
      = [((build_a1_packet ⟨0xA1, 255, 254, 253, 252, 251, 7⟩
            [9, 9, 9, 9, 9, 9, 9, 9, 9, 9] 9).buffer.take 6).sum % 65536 / 256,
         ((build_a1_packet ⟨0xA1, 255, 254, 253, 252, 251, 7⟩
            [9, 9, 9, 9, 9, 9, 9, 9, 9, 9] 9).buffer.take 6).sum % 65536 % 256] ∧
    ((build_a1_packet ⟨0xA1, 255, 254, 253, 252, 251, 7⟩
        [9, 9, 9, 9, 9, 9, 9, 9, 9, 9] 9).buffer.take 6).sum % 65536
      = (0xA1 + 255 + 254 + 253 + 252 + 251) % 65536 :=
  ⟨by decide, by decide,
    build_a1_packet_layout ⟨0xA1, 255, 254, 253, 252, 251, 7⟩
      [9, 9, 9, 9, 9, 9, 9, 9, 9, 9] 9 (by decide) (by decide)⟩

/-- C5: for every input struct and every `buffer_len >= 23` (a length the buffer really
has), `build_a2_packet` returns 23 and writes `cmd` at offset 0, `total_bytes` big-endian
at offsets 1..2, `total_packets` at offset 3, `char_len` at offset 4, the 16 `type_list`
bytes at offsets 5..20 in order, and a two-byte big-endian checksum at offsets 21..22
(the 16-bit value it also stores in the struct). -/
theorem build_a2_packet_layout (a2_data : ble_cmd_a2_t) (buffer : List Nat)
    (buffer_len : Nat) (h23 : 23 ≤ buffer_len) (hlen : buffer_len ≤ buffer.length)
    (htl : a2_data.type_list.length = 16) (htb : a2_data.total_bytes < 65536) :
    ∃ cs, cs < 65536 ∧
      build_a2_packet a2_data buffer buffer_len =
        ⟨23, { a2_data with checksum := cs },
          [a2_data.cmd, a2_data.total_bytes / 256, a2_data.total_bytes % 256,
              a2_data.total_packets, a2_data.char_len]
            ++ a2_data.type_list ++ [cs / 256, cs % 256] ++ buffer.drop 23⟩ := by
  refine ⟨calculate_checksum
      ([a2_data.cmd, (a2_data.total_bytes >>> 8) &&& 0xFF, a2_data.total_bytes &&& 0xFF,
        a2_data.total_packets, a2_data.char_len] ++ a2_data.type_list) 20,
    calculate_checksum_lt _ _, ?_⟩
  rw [build_a2_packet_eq _ _ _ h23 hlen htl]
  simp only [shift_mask_hi _ (calculate_checksum_lt _ _), mask_lo, shift_mask_hi _ htb]

/-- Witness for C5: `total_bytes = 0x1234` and a type list of sixteen distinct bytes. -/
theorem build_a2_packet_layout_witness :
    23 ≤ 23 ∧ 23 ≤ (List.replicate 23 0).length ∧
    (List.range 16).length = 16 ∧ 0x1234 < 65536 ∧
    ∃ cs, cs < 65536 ∧
      build_a2_packet ⟨0xA2, 0x1234, 3, 8, List.range 16, 0⟩ (List.replicate 23 0) 23 =
        ⟨23, { (⟨0xA2, 0x1234, 3, 8, List.range 16, 0⟩ : ble_cmd_a2_t) with checksum := cs },
          [0xA2, 0x1234 / 256, 0x1234 % 256, 3, 8]
            ++ List.range 16 ++ [cs / 256, cs % 256] ++ (List.replicate 23 0).drop 23⟩ :=
  ⟨by decide, by decide, by decide, by decide,
    build_a2_packet_layout ⟨0xA2, 0x1234, 3, 8, List.range 16, 0⟩ (List.replicate 23 0) 23
      (by decide) (by decide) (by decide) (by decide)⟩

/-- C6 (the code at a failing input): with `cmd = 0xA2`, all four scalar bytes zero and a
type list that is zero except for its last byte `0x01`, the sum of the bytes at offsets
1..20 is 1, but `build_a2_packet` writes the checksum bytes `[0x00, 0xA2]`: the command
byte at offset 0 is summed and the last type-list byte at offset 20 is not. Changing
that last byte does not change the checksum written. -/
theorem build_a2_packet_checksum_misses_last_type_byte :
    (build_a2_packet ⟨CMD_A2, 0, 0, 0, [0, 0, 0, 0, 0, 0, 0, 0, 0, 0, 0, 0, 0, 0, 0, 1], 0⟩
        (List.replicate 23 0) 23).ret = 23 ∧
    (((build_a2_packet ⟨CMD_A2, 0, 0, 0, [0, 0, 0, 0, 0, 0, 0, 0, 0, 0, 0, 0, 0, 0, 0, 1], 0⟩
        (List.replicate 23 0) 23).buffer.drop 1).take 20).sum % 65536 = 1 ∧
    (build_a2_packet ⟨CMD_A2, 0, 0, 0, [0, 0, 0, 0, 0, 0, 0, 0, 0, 0, 0, 0, 0, 0, 0, 1], 0⟩
        (List.replicate 23 0) 23).buffer.drop 21 = [0x00, 0xA2] ∧
    (build_a2_packet ⟨CMD_A2, 0, 0, 0, [0, 0, 0, 0, 0, 0, 0, 0, 0, 0, 0, 0, 0, 0, 0, 0xFF], 0⟩
        (List.replicate 23 0) 23).buffer.drop 21 = [0x00, 0xA2] := by
  decide

/-- C7: for every input with `data_len <= 64` and every `buffer_len >= 69` (a length the
buffer really has), `build_a3_packet` returns 69, writes `cmd, packet_num, data_len` at
offsets 0..2, the 64 data bytes at offsets 3..66, and at offsets 67..68 the big-endian
16-bit additive sum of those 64 data bytes only; two inputs with the same 64 data bytes
get the same checksum bytes whatever their `cmd`, `packet_num` and `data_len`. -/
theorem build_a3_packet_layout (a3_data : ble_cmd_a3_t) (buffer : List Nat)
    (buffer_len : Nat) (h69 : 69 ≤ buffer_len) (hlen : buffer_len ≤ buffer.length)
    (hdl : a3_data.data_len ≤ 64) (hd : a3_data.data.length = 64) :
    build_a3_packet a3_data buffer buffer_len =
      ⟨69, { a3_data with data_checksum := a3_data.data.sum % 65536 },
        [a3_data.cmd, a3_data.packet_num, a3_data.data_len] ++ a3_data.data
          ++ [a3_data.data.sum % 65536 / 256, a3_data.data.sum % 65536 % 256]
          ++ buffer.drop 69⟩ ∧
    ∀ (other : ble_cmd_a3_t) (buffer2 : List Nat) (buffer_len2 : Nat),
      69 ≤ buffer_len2 → buffer_len2 ≤ buffer2.length → other.data_len ≤ 64 →
      other.data = a3_data.data →
      ((build_a3_packet other buffer2 buffer_len2).buffer.drop 67).take 2
        = ((build_a3_packet a3_data buffer buffer_len).buffer.drop 67).take 2 := by
  have hsum : calculate_checksum a3_data.data 64 = a3_data.data.sum % 65536 := by
    rw [calculate_checksum_take, ← hd, List.take_length]
  have hlt : a3_data.data.sum % 65536 < 65536 := Nat.mod_lt _ (by decide)
  have key : ∀ (x : ble_cmd_a3_t) (b : List Nat) (n : Nat), 69 ≤ n → n ≤ b.length →
      x.data_len ≤ 64 → x.data = a3_data.data →
      build_a3_packet x b n =
        ⟨69, { x with data_checksum := a3_data.data.sum % 65536 },
          [x.cmd, x.packet_num, x.data_len] ++ a3_data.data
            ++ [a3_data.data.sum % 65536 / 256, a3_data.data.sum % 65536 % 256]
            ++ b.drop 69⟩ := by
    intro x b n h1 h2 h3 h4
    rw [build_a3_packet_eq x b n h1 h2 h3 (by rw [h4]; exact hd), h4, hsum]
    simp only [shift_mask_hi _ hlt, mask_lo]
  refine ⟨key a3_data buffer buffer_len h69 hlen hdl rfl, ?_⟩
  intro other buffer2 buffer_len2 h1 h2 h3 h4
  rw [key other buffer2 buffer_len2 h1 h2 h3 h4, key a3_data buffer buffer_len h69 hlen hdl rfl]
  have e : ∀ (a b c : Nat) (rest : List Nat),
      (([a, b, c] ++ a3_data.data ++ [a3_data.data.sum % 65536 / 256,
        a3_data.data.sum % 65536 % 256] ++ rest).drop 67).take 2
        = [a3_data.data.sum % 65536 / 256, a3_data.data.sum % 65536 % 256] := by
    intro a b c rest
    have hl : ([a, b, c] ++ a3_data.data).length = 67 := by simp [hd]
    rw [List.append_assoc ([a, b, c] ++ a3_data.data), List.drop_left' hl]
    simp
  simp only [e]

/-- Witness for C7: a chunk of sixty-four `0xFF` bytes into a 70-byte buffer. -/
theorem build_a3_packet_layout_witness :
    69 ≤ 70 ∧ 70 ≤ (List.replicate 70 0).length ∧ 52 ≤ 64 ∧
    (List.replicate 64 0xFF).length = 64 ∧
    build_a3_packet ⟨0xA3, 3, 52, List.replicate 64 0xFF, 0⟩ (List.replicate 70 0) 70 =
      ⟨69, { (⟨0xA3, 3, 52, List.replicate 64 0xFF, 0⟩ : ble_cmd_a3_t) with
              data_checksum := (List.replicate 64 0xFF).sum % 65536 },
        [0xA3, 3, 52] ++ List.replicate 64 0xFF
          ++ [(List.replicate 64 0xFF).sum % 65536 / 256,
              (List.replicate 64 0xFF).sum % 65536 % 256]
          ++ (List.replicate 70 0).drop 69⟩ :=
  ⟨by decide, by decide, by decide, by decide,
    (build_a3_packet_layout ⟨0xA3, 3, 52, List.replicate 64 0xFF, 0⟩ (List.replicate 70 0) 70
      (by decide) (by decide) (by decide) (by decide)).1⟩

/-! ## Delivery engine: helper lemmas -/

theorem run_callbacks_tick (ns : List Notification) (w : World) :
    (run_callbacks ns w).tick = w.tick := by
  unfold run_callbacks
  induction ns generalizing w with
  | nil => rfl
  | cons n t ih =>
    rw [List.foldl_cons, ih]
    unfold notification_callback
    split <;> rfl

theorem run_callbacks_counts (ns : List Notification) (w : World) :
    (run_callbacks ns w).m_state.success_count = w.m_state.success_count ∧
    (run_callbacks ns w).m_state.fail_count = w.m_state.fail_count := by
  unfold run_callbacks
  induction ns generalizing w with
  | nil => exact ⟨rfl, rfl⟩
  | cons n t ih =>
    rw [List.foldl_cons]
    refine ⟨(ih _).1.trans ?_, (ih _).2.trans ?_⟩ <;>
    · unfold notification_callback
      split <;> rfl

theorem notification_callback_flag (n : Notification) (w : World) :
    (notification_callback n.uuid_str n.data n.data_length w).m_state.last_send_success
      = if n.uuid_str = NOTIFY_UUID then n.is_positive else w.m_state.last_send_success := by
  unfold notification_callback Notification.is_positive
  by_cases hu : n.uuid_str = NOTIFY_UUID
  · by_cases hl : 1 ≤ n.data_length
    · by_cases h1 : n.data.getD 0 0 = 1
      · simp [hu, hl, h1]
      · by_cases h0 : n.data.getD 0 0 = 0
        · simp [hu, hl, h0]
        · simp [hu, hl, h1, h0]
    · simp [hu, hl]
  · simp [hu]

theorem run_callbacks_flag (ns : List Notification) (w : World) :
    (run_callbacks ns w).m_state.last_send_success
      = outcome_flag ns w.m_state.last_send_success := by
  unfold run_callbacks outcome_flag
  induction ns generalizing w with
  | nil => rfl
  | cons n t ih =>
    rw [List.foldl_cons, List.foldl_cons, ih, notification_callback_flag]

theorem run_callbacks_trace_eq (ns : List Notification) (w : World) :
    (run_callbacks ns w).trace = w.trace ++
      List.replicate (ns.countP (fun n => decide (n.uuid_str = NOTIFY_UUID)))
        Event.cond_signal := by
  unfold run_callbacks
  induction ns generalizing w with
  | nil => simp
  | cons n t ih =>
    rw [List.foldl_cons, ih]
    unfold notification_callback
    by_cases hu : n.uuid_str = NOTIFY_UUID
    · simp [hu, List.countP_cons, List.replicate_succ]
    · simp [hu, List.countP_cons]

theorem countP_uuid_write_signals (k : Nat) :
    (List.replicate k Event.cond_signal).countP Event.is_uuid_write = 0 := by
  induction k with
  | zero => rfl
  | succ k ih => simp [List.replicate_succ, List.countP_cons, Event.is_uuid_write, ih]

theorem countP_wait_signals (k : Nat) :
    (List.replicate k Event.cond_signal).countP Event.is_wait = 0 := by
  induction k with
  | zero => rfl
  | succ k ih => simp [List.replicate_succ, List.countP_cons, Event.is_wait, ih]

theorem attempt_world_tick (data : List Nat) (len : Nat) (a : Attempt) (w : World) :
    (attempt_world data len a w).tick = w.tick + 1 := by
  unfold attempt_world
  by_cases hu : a.ret_uuid = 0 <;> by_cases hf : a.write_failed = true <;>
    simp [hu, hf, run_callbacks_tick]

theorem attempt_world_counts (data : List Nat) (len : Nat) (a : Attempt) (w : World) :
    (attempt_world data len a w).m_state.success_count = w.m_state.success_count ∧
    (attempt_world data len a w).m_state.fail_count = w.m_state.fail_count := by
  unfold attempt_world
  by_cases hu : a.ret_uuid = 0 <;> by_cases hf : a.write_failed = true <;>
    by_cases hm : a.malloc_ok = true <;>
    simp [hu, hf, hm, run_callbacks_counts]

theorem attempt_world_flag (data : List Nat) (len : Nat) (a : Attempt) (w : World)
    (hf : a.write_failed = false) :
    (attempt_world data len a w).m_state.last_send_success = outcome_flag a.during false := by
  unfold attempt_world
  by_cases hu : a.ret_uuid = 0 <;> by_cases hm : a.malloc_ok = true <;>
    simp [hu, hf, hm, run_callbacks_flag]

theorem attempt_world_trace (data : List Nat) (len : Nat) (a : Attempt) (w : World) :
    ∃ evs, (attempt_world data len a w).trace = w.trace ++ evs ∧
      evs.countP Event.is_uuid_write = 1 ∧
      evs.countP Event.is_wait = if a.write_failed then 0 else 1 := by
  refine ⟨(attempt_world data len a w).trace.drop w.trace.length, ?_, ?_, ?_⟩ <;>
    unfold attempt_world <;>
    by_cases hu : a.ret_uuid = 0 <;> by_cases hf : a.write_failed = true <;>
    simp [hu, hf, run_callbacks_trace_eq, List.countP_append, List.countP_cons,
      countP_uuid_write_signals, countP_wait_signals, Event.is_uuid_write, Event.is_wait]

theorem loop_exhausted (connection : Option Nat) (data : List Nat) (len : Nat)
    (env : Nat → Attempt) (fuel retries : Nat) (w : World) (hr : ¬ retries < MAX_RETRIES) :
    send_packet_with_retry_loop connection data len env (fuel + 1) retries w
      = some (false, w.count_fail) := by
  rw [send_packet_with_retry_loop]
  simp only [hr, if_false, World.count_fail]

theorem loop_step (c : Nat) (data : List Nat) (len : Nat) (env : Nat → Attempt)
    (fuel retries : Nat) (w : World) (hr : retries < MAX_RETRIES) :
    send_packet_with_retry_loop (some c) data len env (fuel + 1) retries w =
      if (env w.tick).positive then
        some (true, (attempt_world data len (env w.tick) w).count_success)
      else
        send_packet_with_retry_loop (some c) data len env fuel (retries + 1)
          (attempt_world data len (env w.tick) w) := by
  rw [send_packet_with_retry_loop]
  simp only [hr, if_true]
  unfold attempt_world Attempt.positive Attempt.write_failed Attempt.timed_out
    World.count_success
  by_cases hm : (env w.tick).malloc_ok = true <;>
    by_cases hu : (env w.tick).ret_uuid = 0 <;>
    by_cases hh : (env w.tick).ret_handle = 0 <;>
    by_cases ht : (env w.tick).cond_ret = ETIMEDOUT <;>
    by_cases hs : outcome_flag (env w.tick).during false = true <;>
    simp [hm, hu, hh, ht, hs, run_callbacks_flag]

/-- The invariant of the retry loop: entered with `n` retries left and more than `n`
units of fuel, it returns; the answers it consumed, the calls it made and the counters
it changed are as listed. -/
theorem loop_spec (c : Nat) (data : List Nat) (len : Nat) (env : Nat → Attempt) :
    ∀ (n fuel retries : Nat) (w : World), retries + n = MAX_RETRIES → n < fuel →
    ∃ b w', send_packet_with_retry_loop (some c) data len env fuel retries w = some (b, w') ∧
      (∃ evs, w'.trace = w.trace ++ evs ∧
        evs.countP Event.is_uuid_write = w'.tick - w.tick ∧
        evs.countP Event.is_wait ≤ w'.tick - w.tick) ∧
      (b = true → ∃ k, k < n ∧ w'.tick = w.tick + k + 1 ∧
        (env (w.tick + k)).positive = true ∧
        (∀ j, j < k → (env (w.tick + j)).positive = false) ∧
        w'.m_state.success_count = w.m_state.success_count + 1 ∧
        w'.m_state.fail_count = w.m_state.fail_count) ∧
      (b = false → w'.tick = w.tick + n ∧
        (∀ j, j < n → (env (w.tick + j)).positive = false) ∧
        w'.m_state.fail_count = w.m_state.fail_count + 1 ∧
        w'.m_state.success_count = w.m_state.success_count) := by
  intro n
  induction n with
  | zero =>
    intro fuel retries w hr hf
    obtain ⟨f, rfl⟩ : ∃ f, fuel = f + 1 := ⟨fuel - 1, by omega⟩
    refine ⟨false, w.count_fail, loop_exhausted _ _ _ _ _ _ _ (by omega), ⟨[], ?_⟩, ?_, ?_⟩
    · simp [World.count_fail]
    · intro h; cases h
    · intro _
      exact ⟨rfl, fun j hj => absurd hj (Nat.not_lt_zero j), rfl, rfl⟩
  | succ n ih =>
    intro fuel retries w hr hf
    obtain ⟨f, rfl⟩ : ∃ f, fuel = f + 1 := ⟨fuel - 1, by omega⟩
    have hlt : retries < MAX_RETRIES := by omega
    rw [loop_step c data len env f retries w hlt]
    obtain ⟨e1, t1, u1, v1⟩ := attempt_world_trace data len (env w.tick) w
    have hk := attempt_world_tick data len (env w.tick) w
    obtain ⟨hsucc, hfail⟩ := attempt_world_counts data len (env w.tick) w
    have v1le : e1.countP Event.is_wait ≤ 1 := by
      rw [v1]; split <;> omega
    by_cases hp : (env w.tick).positive = true
    · rw [if_pos hp]
      refine ⟨true, _, rfl, ⟨e1, ?_, ?_, ?_⟩, ?_, ?_⟩
      · simpa [World.count_success] using t1
      · simp [World.count_success, hk, u1]
      · simp [World.count_success, hk, v1le]
      · intro _
        refine ⟨0, Nat.succ_pos n, by simp [World.count_success, hk], by simpa using hp,
          fun j hj => absurd hj (Nat.not_lt_zero j), ?_, ?_⟩
        · simp [World.count_success, hsucc]
        · simp [World.count_success, hfail]
      · intro h; cases h
    · rw [if_neg hp]
      have hp0 : (env w.tick).positive = false := by simpa using hp
      obtain ⟨b, w', hrun, ⟨e2, t2, u2, v2⟩, htrue, hfalse⟩ :=
        ih f (retries + 1) (attempt_world data len (env w.tick) w) (by omega) (by omega)
      refine ⟨b, w', hrun, ⟨e1 ++ e2, ?_, ?_, ?_⟩, ?_, ?_⟩
      · rw [t2, t1, List.append_assoc]
      · have hle : w.tick + 1 ≤ w'.tick := by
          cases b with
          | true => obtain ⟨k, _, hk2, _⟩ := htrue rfl; omega
          | false => obtain ⟨hk2, _⟩ := hfalse rfl; omega
        rw [List.countP_append, u1, u2, hk]; omega
      · have hle : w.tick + 1 ≤ w'.tick := by
          cases b with
          | true => obtain ⟨k, _, hk2, _⟩ := htrue rfl; omega
          | false => obtain ⟨hk2, _⟩ := hfalse rfl; omega
        rw [List.countP_append]; rw [hk] at v2; omega
      · intro hb
        obtain ⟨k, hkn, hk2, hpos, hprev, hs, hfl⟩ := htrue hb
        refine ⟨k + 1, by omega, by omega, ?_, ?_, by rw [hs, hsucc], by rw [hfl, hfail]⟩
        · rw [hk] at hpos
          rw [show w.tick + (k + 1) = w.tick + 1 + k by omega]; exact hpos
        · intro j hj
          cases j with
          | zero => simpa using hp0
          | succ i =>
            have := hprev i (by omega)
            rw [hk] at this
            rw [show w.tick + (i + 1) = w.tick + 1 + i by omega]; exact this
      · intro hb
        obtain ⟨hk2, hprev, hfl, hs⟩ := hfalse hb
        refine ⟨by omega, ?_, by rw [hfl, hfail], by rw [hs, hsucc]⟩
        intro j hj
        cases j with
        | zero => simpa using hp0
        | succ i =>
          have := hprev i (by omega)
          rw [hk] at this
          rw [show w.tick + (i + 1) = w.tick + 1 + i by omega]; exact this

theorem loop_null (data : List Nat) (len : Nat) (env : Nat → Attempt)
    (fuel retries : Nat) (w : World) (hr : retries < MAX_RETRIES) :
    send_packet_with_retry_loop none data len env (fuel + 1) retries w = some (false, w) := by
  rw [send_packet_with_retry_loop]
  simp only [hr, if_true]

/-! ## Delivery engine: the claims -/

/-- C8: with a non-null connection and each attempt being a failed write (both paths),
a timed-out wait, or a wake-up with last-outcome flag `b`, `send_packet_with_retry`
returns, and it returns true if and only if some attempt `k` among the first three is a
non-timed-out wake-up with `b = true` and none of the attempts before it is; it then
returns at that attempt, having consumed exactly `k + 1` attempts. A failed write, a
timeout, and a wake-up by a notification that is empty or has a first byte other than
`0x01` each count as a failed attempt; a wake-up by a notification with first byte
`0x01` is the successful kind. -/
theorem send_packet_with_retry_true_iff (fuel c : Nat) (data : List Nat) (len : Nat)
    (env : Nat → Attempt) (w : World) (hfuel : MAX_RETRIES < fuel) :
    (∃ b w', send_packet_with_retry fuel (some c) data len env w = some (b, w') ∧
      (b = true ↔ ∃ k, k < 3 ∧ (env (w.tick + k)).positive = true ∧
        ∀ j, j < k → (env (w.tick + j)).positive = false) ∧
      (∀ k, k < 3 → (env (w.tick + k)).positive = true →
        (∀ j, j < k → (env (w.tick + j)).positive = false) →
        b = true ∧ w'.tick = w.tick + k + 1)) ∧
    (∀ a : Attempt, a.write_failed = true → a.positive = false) ∧
    (∀ a : Attempt, a.timed_out = true → a.positive = false) ∧
    (∀ (a : Attempt) (n : Notification), a.during = [n] → n.uuid_str = NOTIFY_UUID →
      (a.positive = true ↔ a.write_failed = false ∧ a.timed_out = false ∧
        1 ≤ n.data_length ∧ n.data.getD 0 0 = 0x01)) := by
  refine ⟨?_, ?_, ?_, ?_⟩
  · obtain ⟨b, w', hrun, _, htrue, hfalse⟩ :=
      loop_spec c data len env 3 fuel 0 w (by simp [MAX_RETRIES]) hfuel
    refine ⟨b, w', hrun, ⟨?_, ?_⟩, ?_⟩
    · intro hb
      obtain ⟨k, hk, _, hpos, hprev, _⟩ := htrue hb
      exact ⟨k, hk, hpos, hprev⟩
    · rintro ⟨k, hk, hpos, _⟩
      cases b with
      | true => rfl
      | false =>
        obtain ⟨_, hnone, _⟩ := hfalse rfl
        rw [hnone k hk] at hpos
        cases hpos
    · intro k hk hpos hprev
      cases b with
      | true =>
        obtain ⟨k2, hk2, htick, hpos2, hprev2, _⟩ := htrue rfl
        refine ⟨rfl, ?_⟩
        rcases Nat.lt_trichotomy k k2 with h | h | h
        · rw [hprev2 k h] at hpos; cases hpos
        · rw [h]; exact htick
        · rw [hprev k2 h] at hpos2; cases hpos2
      | false =>
        obtain ⟨_, hnone, _⟩ := hfalse rfl
        rw [hnone k hk] at hpos
        cases hpos
  · intro a h
    simp [Attempt.positive, h]
  · intro a h
    simp [Attempt.positive, h]
  · intro a n hd hu
    simp [Attempt.positive, outcome_flag, hd, hu, Notification.is_positive, and_assoc]

/-- Witness for C8: the first attempt times out, the second is refused with `0x00`, the
third is acknowledged with `0x01`. -/
theorem send_packet_with_retry_true_iff_witness :
    MAX_RETRIES < 4 ∧
    ((∃ b w', send_packet_with_retry 4 (some 1) [0xA0, 3, 0, 0xA3] 4 env_third_acked
          world_init = some (b, w') ∧
      (b = true ↔ ∃ k, k < 3 ∧ (env_third_acked (world_init.tick + k)).positive = true ∧
        ∀ j, j < k → (env_third_acked (world_init.tick + j)).positive = false) ∧
      (∀ k, k < 3 → (env_third_acked (world_init.tick + k)).positive = true →
        (∀ j, j < k → (env_third_acked (world_init.tick + j)).positive = false) →
        b = true ∧ w'.tick = world_init.tick + k + 1)) ∧
    (∀ a : Attempt, a.write_failed = true → a.positive = false) ∧
    (∀ a : Attempt, a.timed_out = true → a.positive = false) ∧
    (∀ (a : Attempt) (n : Notification), a.during = [n] → n.uuid_str = NOTIFY_UUID →
      (a.positive = true ↔ a.write_failed = false ∧ a.timed_out = false ∧
        1 ≤ n.data_length ∧ n.data.getD 0 0 = 0x01))) :=
  ⟨by decide,
    send_packet_with_retry_true_iff 4 1 [0xA0, 3, 0, 0xA3] 4 env_third_acked world_init
      (by decide)⟩

/-- C9: for every transport behaviour and every connection (null or not),
`send_packet_with_retry` returns, having made at most `MAX_RETRIES = 3` attempts: it
issues at most 3 UUID-addressed writes and performs at most 3 acknowledgement waits. -/
theorem send_packet_with_retry_bounded (fuel : Nat) (connection : Option Nat)
    (data : List Nat) (len : Nat) (env : Nat → Attempt) (w : World)
    (hfuel : MAX_RETRIES < fuel) :
    MAX_RETRIES = 3 ∧
    ∃ b w', send_packet_with_retry fuel connection data len env w = some (b, w') ∧
      w.tick ≤ w'.tick ∧ w'.tick - w.tick ≤ MAX_RETRIES ∧
      ∃ evs, w'.trace = w.trace ++ evs ∧
        evs.countP Event.is_uuid_write ≤ MAX_RETRIES ∧
        evs.countP Event.is_wait ≤ MAX_RETRIES := by
  refine ⟨rfl, ?_⟩
  cases connection with
  | none =>
    obtain ⟨f, rfl⟩ : ∃ f, fuel = f + 1 := ⟨fuel - 1, by omega⟩
    refine ⟨false, w, loop_null data len env f 0 w (by decide), le_refl _, by simp, [], ?_⟩
    simp
  | some c =>
    obtain ⟨b, w', hrun, ⟨evs, t, u, v⟩, htrue, hfalse⟩ :=
      loop_spec c data len env 3 fuel 0 w (by simp [MAX_RETRIES]) hfuel
    have hbound : w.tick ≤ w'.tick ∧ w'.tick - w.tick ≤ 3 := by
      cases b with
      | true => obtain ⟨k, hk, htick, _⟩ := htrue rfl; omega
      | false => obtain ⟨htick, _⟩ := hfalse rfl; omega
    refine ⟨b, w', hrun, hbound.1, hbound.2, evs, t, ?_, ?_⟩
    · rw [u]; exact hbound.2
    · exact le_trans v hbound.2

/-- Witness for C9: three timeouts in a row. -/
theorem send_packet_with_retry_bounded_witness :
    MAX_RETRIES < 4 ∧ MAX_RETRIES = 3 ∧
    ∃ b w', send_packet_with_retry 4 (some 1) [0xA0, 3, 0, 0xA3] 4 env_timeouts world_init
        = some (b, w') ∧
      world_init.tick ≤ w'.tick ∧ w'.tick - world_init.tick ≤ MAX_RETRIES ∧
      ∃ evs, w'.trace = world_init.trace ++ evs ∧
        evs.countP Event.is_uuid_write ≤ MAX_RETRIES ∧
        evs.countP Event.is_wait ≤ MAX_RETRIES :=
  ⟨by decide,
    send_packet_with_retry_bounded 4 (some 1) [0xA0, 3, 0, 0xA3] 4 env_timeouts world_init
      (by decide)⟩

/-- C10: for every call of `send_packet_with_retry` with a non-null connection: if it
returns true, `success_count` has grown by exactly 1 and `fail_count` is unchanged; if it
returns false, it has exhausted its retries, `fail_count` has grown by exactly 1 (not by
the number of attempts) and `success_count` is unchanged. Three consecutive timeouts
give exactly 3 attempts, a false result and `fail_count + 1`. Neither counter
decreases. -/
theorem send_packet_with_retry_counters (fuel c : Nat) (data : List Nat) (len : Nat)
    (env : Nat → Attempt) (w : World) (hfuel : MAX_RETRIES < fuel) :
    ∃ b w', send_packet_with_retry fuel (some c) data len env w = some (b, w') ∧
      (b = true → w'.m_state.success_count = w.m_state.success_count + 1 ∧
        w'.m_state.fail_count = w.m_state.fail_count) ∧
      (b = false → w'.tick = w.tick + 3 ∧
        w'.m_state.fail_count = w.m_state.fail_count + 1 ∧
        w'.m_state.success_count = w.m_state.success_count) ∧
      ((∀ j, j < 3 → (env (w.tick + j)).write_failed = false ∧
          (env (w.tick + j)).timed_out = true) →
        b = false ∧ w'.tick = w.tick + 3 ∧
        w'.m_state.fail_count = w.m_state.fail_count + 1) ∧
      w.m_state.success_count ≤ w'.m_state.success_count ∧
      w.m_state.fail_count ≤ w'.m_state.fail_count := by
  obtain ⟨b, w', hrun, _, htrue, hfalse⟩ :=
    loop_spec c data len env 3 fuel 0 w (by simp [MAX_RETRIES]) hfuel
  refine ⟨b, w', hrun, ?_, ?_, ?_, ?_, ?_⟩
  · intro hb
    obtain ⟨k, _, _, _, _, hs, hfl⟩ := htrue hb
    exact ⟨hs, hfl⟩
  · intro hb
    obtain ⟨htick, _, hfl, hs⟩ := hfalse hb
    exact ⟨htick, hfl, hs⟩
  · intro hall
    cases b with
    | true =>
      obtain ⟨k, hk, _, hpos, _⟩ := htrue rfl
      have := (hall k hk).2
      simp [Attempt.positive, this] at hpos
    | false =>
      obtain ⟨htick, _, hfl, _⟩ := hfalse rfl
      exact ⟨rfl, htick, hfl⟩
  · cases b with
    | true => obtain ⟨k, _, _, _, _, hs, _⟩ := htrue rfl; omega
    | false => obtain ⟨_, _, _, hs⟩ := hfalse rfl; omega
  · cases b with
    | true => obtain ⟨k, _, _, _, _, _, hfl⟩ := htrue rfl; omega
    | false => obtain ⟨_, _, hfl, _⟩ := hfalse rfl; omega

/-- Witness for C10: three timeouts in a row, starting from the initial state. -/
theorem send_packet_with_retry_counters_witness :
    MAX_RETRIES < 4 ∧
    ∃ b w', send_packet_with_retry 4 (some 1) [0xA0, 3, 0, 0xA3] 4 env_timeouts world_init
        = some (b, w') ∧
      (b = true → w'.m_state.success_count = world_init.m_state.success_count + 1 ∧
        w'.m_state.fail_count = world_init.m_state.fail_count) ∧
      (b = false → w'.tick = world_init.tick + 3 ∧
        w'.m_state.fail_count = world_init.m_state.fail_count + 1 ∧
        w'.m_state.success_count = world_init.m_state.success_count) ∧
      ((∀ j, j < 3 → (env_timeouts (world_init.tick + j)).write_failed = false ∧
          (env_timeouts (world_init.tick + j)).timed_out = true) →
        b = false ∧ w'.tick = world_init.tick + 3 ∧
        w'.m_state.fail_count = world_init.m_state.fail_count + 1) ∧
      world_init.m_state.success_count ≤ w'.m_state.success_count ∧
      world_init.m_state.fail_count ≤ w'.m_state.fail_count :=
  ⟨by decide,
    send_packet_with_retry_counters 4 1 [0xA0, 3, 0, 0xA3] 4 env_timeouts world_init
      (by decide)⟩

/-! ## Feedback correlator: the claims -/

/-- C13: the effect of `notification_callback`: for a notification whose identifier
string is the acknowledgement identifier, `last_send_success` becomes true if and only
if the payload is non-empty and its first byte is `0x01` (false otherwise), the
condition is signalled once and nothing else changes; for any other identifier the
state is unchanged and nothing is signalled. -/
theorem notification_callback_effect (uuid_str : String) (data : List Nat)
    (data_length : Nat) (w : World) :
    notification_callback uuid_str data data_length w =
      if uuid_str = NOTIFY_UUID then
        { w with
          m_state := { w.m_state with
            last_send_success := decide (1 ≤ data_length ∧ data.getD 0 0 = 0x01) }
          trace := w.trace ++ [Event.cond_signal] }
      else w := by
  unfold notification_callback
  by_cases hu : uuid_str = NOTIFY_UUID
  · by_cases hl : 1 ≤ data_length
    · by_cases h1 : data.getD 0 0 = 1
      · simp [hu, hl, h1]
      · by_cases h0 : data.getD 0 0 = 0
        · simp [hu, hl, h0]
        · simp [hu, hl, h1, h0]
    · simp [hu, hl]
  · simp [hu]

/-- C15 (as stated, refuted): with `waiting_feedback = false` and
`last_send_success = false`, a notification `[0x01]` on the acknowledgement identifier
is not discarded: `notification_callback` sets `last_send_success` to true and
signals. -/
theorem notification_callback_not_discarded_when_idle :
    world_init.m_state.waiting_feedback = false ∧
    world_init.m_state.last_send_success = false ∧
    (notification_callback NOTIFY_UUID [0x01] 1 world_init).m_state.last_send_success = true ∧
    (notification_callback NOTIFY_UUID [0x01] 1 world_init).m_state ≠ world_init.m_state ∧
    (notification_callback NOTIFY_UUID [0x01] 1 world_init).trace = [Event.cond_signal] := by
  decide

/-- C15 (amended): a notification on the acknowledgement identifier that arrives while
`waiting_feedback = false` is not discarded by `notification_callback`: for every
payload it overwrites `last_send_success` with "payload non-empty and first byte
`0x01`" and signals the condition once; every other field of the state, the flag
`waiting_feedback` included, is left unchanged. -/
theorem notification_callback_when_idle (data : List Nat) (data_length : Nat) (w : World)
    (hidle : w.m_state.waiting_feedback = false) :
    notification_callback NOTIFY_UUID data data_length w =
      { w with
        m_state := { w.m_state with
          last_send_success := decide (1 ≤ data_length ∧ data.getD 0 0 = 0x01) }
        trace := w.trace ++ [Event.cond_signal] } ∧
    (notification_callback NOTIFY_UUID data data_length w).m_state.waiting_feedback = false ∧
    (notification_callback NOTIFY_UUID data data_length w).forget_flag.m_state
      = w.forget_flag.m_state := by
  have e : notification_callback NOTIFY_UUID data data_length w =
      { w with
        m_state := { w.m_state with
          last_send_success := decide (1 ≤ data_length ∧ data.getD 0 0 = 0x01) }
        trace := w.trace ++ [Event.cond_signal] } := by
    unfold notification_callback
    by_cases hl : 1 ≤ data_length
    · by_cases h1 : data.getD 0 0 = 1
      · simp [hl, h1]
      · by_cases h0 : data.getD 0 0 = 0
        · simp [hl, h0]
        · simp [hl, h1, h0]
    · simp [hl]
  rw [e]
  exact ⟨rfl, hidle, rfl⟩

/-- Witness for C15 (amended): a negative acknowledgement `0x00` arriving in the
initial state. -/
theorem notification_callback_when_idle_witness :
    world_init.m_state.waiting_feedback = false ∧
    (notification_callback NOTIFY_UUID [0x00] 1 world_init =
      { world_init with
        m_state := { world_init.m_state with
          last_send_success := decide (1 ≤ 1 ∧ [0x00].getD 0 0 = 0x01) }
        trace := world_init.trace ++ [Event.cond_signal] } ∧
    (notification_callback NOTIFY_UUID [0x00] 1 world_init).m_state.waiting_feedback = false ∧
    (notification_callback NOTIFY_UUID [0x00] 1 world_init).forget_flag.m_state
      = world_init.forget_flag.m_state) :=
  ⟨by decide, notification_callback_when_idle [0x00] 1 world_init (by decide)⟩

/-! ## Delivery engine: write failures and stale acknowledgements -/

theorem positive_of_write_failed (a : Attempt) (h : a.write_failed = true) :
    a.positive = false := by
  simp [Attempt.positive, h]

/-- C11: in `send_packet_with_retry`, an attempt whose write fails on both the UUID path
and the handle path is one failed attempt, performs no acknowledgement wait and does not
abort the call: if attempt 1 cannot be written and attempt 2 is written and positively
acknowledged, the call returns true after 2 attempts (two UUID-addressed writes, one
wait); if the write fails on all 3 attempts, the call returns false after 3 attempts
with `fail_count` incremented by 1 and without ever waiting. -/
theorem send_packet_with_retry_write_failure (fuel c : Nat) (data : List Nat) (len : Nat)
    (env : Nat → Attempt) (w : World) (hfuel : MAX_RETRIES < fuel) :
    ((env w.tick).write_failed = true → (env (w.tick + 1)).positive = true →
      ∃ w' evs, send_packet_with_retry fuel (some c) data len env w = some (true, w') ∧
        w'.tick = w.tick + 2 ∧ w'.trace = w.trace ++ evs ∧
        evs.countP Event.is_uuid_write = 2 ∧ evs.countP Event.is_wait = 1 ∧
        w'.m_state.success_count = w.m_state.success_count + 1 ∧
        w'.m_state.fail_count = w.m_state.fail_count) ∧
    ((∀ j, j < 3 → (env (w.tick + j)).write_failed = true) →
      ∃ w' evs, send_packet_with_retry fuel (some c) data len env w = some (false, w') ∧
        w'.tick = w.tick + 3 ∧ w'.trace = w.trace ++ evs ∧
        evs.countP Event.is_uuid_write = 3 ∧ evs.countP Event.is_wait = 0 ∧
        w'.m_state.fail_count = w.m_state.fail_count + 1 ∧
        w'.m_state.success_count = w.m_state.success_count) := by
  obtain ⟨f, rfl⟩ : ∃ f, fuel = f + 4 := ⟨fuel - 4, by simp [MAX_RETRIES] at hfuel; omega⟩
  unfold send_packet_with_retry
  refine ⟨?_, ?_⟩
  · intro hwf hpos
    obtain ⟨e1, t1, u1, v1⟩ := attempt_world_trace data len (env w.tick) w
    have k1 := attempt_world_tick data len (env w.tick) w
    obtain ⟨s1, f1⟩ := attempt_world_counts data len (env w.tick) w
    generalize hw1 : attempt_world data len (env w.tick) w = w1 at *
    obtain ⟨e2, t2, u2, v2⟩ := attempt_world_trace data len (env w1.tick) w1
    have k2 := attempt_world_tick data len (env w1.tick) w1
    obtain ⟨s2, f2⟩ := attempt_world_counts data len (env w1.tick) w1
    generalize hw2 : attempt_world data len (env w1.tick) w1 = w2 at *
    have hpos1 : (env w1.tick).positive = true := by rw [k1]; exact hpos
    have hnf : (env w1.tick).write_failed = false := by
      cases h : (env w1.tick).write_failed with
      | false => rfl
      | true => rw [positive_of_write_failed _ h] at hpos1; cases hpos1
    rw [loop_step c data len env (f + 3) 0 w (by decide), positive_of_write_failed _ hwf]
    simp only [Bool.false_eq_true, if_false]
    rw [hw1, loop_step c data len env (f + 2) 1 w1 (by decide), hpos1]
    simp only [if_true]
    rw [hw2]
    refine ⟨_, e1 ++ e2, rfl, ?_, ?_, ?_, ?_, ?_, ?_⟩
    · simp only [World.count_success]; omega
    · simp only [World.count_success]; rw [t2, t1, List.append_assoc]
    · rw [List.countP_append, u1, u2]
    · rw [List.countP_append, v1, v2, hwf, hnf]; rfl
    · simp only [World.count_success]; rw [s2, s1]
    · simp only [World.count_success]; rw [f2, f1]
  · intro hall
    have h0 := hall 0 (by decide)
    have h1 := hall 1 (by decide)
    have h2 := hall 2 (by decide)
    simp only [Nat.add_zero] at h0
    obtain ⟨e1, t1, u1, v1⟩ := attempt_world_trace data len (env w.tick) w
    have k1 := attempt_world_tick data len (env w.tick) w
    obtain ⟨s1, f1⟩ := attempt_world_counts data len (env w.tick) w
    generalize hw1 : attempt_world data len (env w.tick) w = w1 at *
    obtain ⟨e2, t2, u2, v2⟩ := attempt_world_trace data len (env w1.tick) w1
    have k2 := attempt_world_tick data len (env w1.tick) w1
    obtain ⟨s2, f2⟩ := attempt_world_counts data len (env w1.tick) w1
    generalize hw2 : attempt_world data len (env w1.tick) w1 = w2 at *
    obtain ⟨e3, t3, u3, v3⟩ := attempt_world_trace data len (env w2.tick) w2
    have k3 := attempt_world_tick data len (env w2.tick) w2
    obtain ⟨s3, f3⟩ := attempt_world_counts data len (env w2.tick) w2
    generalize hw3 : attempt_world data len (env w2.tick) w2 = w3 at *
    have q1 : (env w1.tick).write_failed = true := by rw [k1]; exact h1
    have q2 : (env w2.tick).write_failed = true := by rw [k2, k1]; exact h2
    rw [loop_step c data len env (f + 3) 0 w (by decide), positive_of_write_failed _ h0]
    simp only [Bool.false_eq_true, if_false]
    rw [hw1, loop_step c data len env (f + 2) 1 w1 (by decide), positive_of_write_failed _ q1]
    simp only [Bool.false_eq_true, if_false]
    rw [hw2, loop_step c data len env (f + 1) 2 w2 (by decide), positive_of_write_failed _ q2]
    simp only [Bool.false_eq_true, if_false]
    rw [hw3, loop_exhausted (some c) data len env f 3 w3 (by decide)]
    refine ⟨_, e1 ++ e2 ++ e3, rfl, ?_, ?_, ?_, ?_, ?_, ?_⟩
    · simp only [World.count_fail]; omega
    · simp only [World.count_fail]; rw [t3, t2, t1]; simp only [List.append_assoc]
    · rw [List.countP_append, List.countP_append, u1, u2, u3]
    · rw [List.countP_append, List.countP_append, v1, v2, v3, h0, q1, q2]; rfl
    · simp only [World.count_fail]; rw [f3, f2, f1]
    · simp only [World.count_fail]; rw [s3, s2, s1]

/-- Witness for C11: the first attempt cannot be written, the second is acknowledged. -/
theorem send_packet_with_retry_write_failure_witness :
    MAX_RETRIES < 4 ∧
    ((env_first_write_fails world_init.tick).write_failed = true →
      (env_first_write_fails (world_init.tick + 1)).positive = true →
      ∃ w' evs, send_packet_with_retry 4 (some 1) [0xA0, 3, 0, 0xA3] 4 env_first_write_fails
          world_init = some (true, w') ∧
        w'.tick = world_init.tick + 2 ∧ w'.trace = world_init.trace ++ evs ∧
        evs.countP Event.is_uuid_write = 2 ∧ evs.countP Event.is_wait = 1 ∧
        w'.m_state.success_count = world_init.m_state.success_count + 1 ∧
        w'.m_state.fail_count = world_init.m_state.fail_count) ∧
    (env_first_write_fails world_init.tick).write_failed = true ∧
    (env_first_write_fails (world_init.tick + 1)).positive = true :=
  ⟨by decide,
    (send_packet_with_retry_write_failure 4 1 [0xA0, 3, 0, 0xA3] 4 env_first_write_fails
      world_init (by decide)).1,
    by decide, by decide⟩

theorem notification_callback_eq (n : Notification) (w : World) :
    notification_callback n.uuid_str n.data n.data_length w =
      if n.uuid_str = NOTIFY_UUID then
        { w with
          m_state := { w.m_state with last_send_success := n.is_positive }
          trace := w.trace ++ [Event.cond_signal] }
      else w := by
  unfold notification_callback Notification.is_positive
  by_cases hu : n.uuid_str = NOTIFY_UUID
  · by_cases hl : 1 ≤ n.data_length
    · by_cases h1 : n.data.getD 0 0 = 1
      · simp [hu, hl, h1]
      · by_cases h0 : n.data.getD 0 0 = 0
        · simp [hu, hl, h0]
        · simp [hu, hl, h1, h0]
    · simp [hu, hl]
  · simp [hu]

theorem run_callbacks_eq (ns : List Notification) (w : World) :
    run_callbacks ns w =
      { m_state := { w.m_state with
          last_send_success := outcome_flag ns w.m_state.last_send_success }
        trace := w.trace ++
          List.replicate (ns.countP (fun n => decide (n.uuid_str = NOTIFY_UUID)))
            Event.cond_signal
        tick := w.tick } := by
  unfold run_callbacks outcome_flag
  induction ns generalizing w with
  | nil => simp
  | cons n t ih =>
    rw [List.foldl_cons, List.foldl_cons, ih, notification_callback_eq]
    by_cases hu : n.uuid_str = NOTIFY_UUID
    · simp [hu, List.countP_cons, List.replicate_succ]
    · simp [hu, List.countP_cons]

theorem attempt_world_with_flag (data : List Nat) (len : Nat) (a : Attempt) (w : World)
    (b : Bool) :
    ∃ b', attempt_world data len a (w.with_flag b)
      = (attempt_world data len a w).with_flag b' := by
  by_cases hf : a.write_failed = true
  · refine ⟨b, ?_⟩
    unfold attempt_world
    by_cases hu : a.ret_uuid = 0 <;> simp [hu, hf, World.with_flag]
  · refine ⟨(attempt_world data len a w).m_state.last_send_success, ?_⟩
    unfold attempt_world
    simp only [run_callbacks_eq]
    by_cases hu : a.ret_uuid = 0 <;> by_cases hm : a.malloc_ok = true <;>
      simp [hu, hf, hm, World.with_flag]

theorem loop_with_flag (connection : Option Nat) (data : List Nat) (len : Nat)
    (env : Nat → Attempt) :
    ∀ (fuel retries : Nat) (w : World) (b : Bool),
      (send_packet_with_retry_loop connection data len env fuel retries (w.with_flag b)).map
          (fun r => (r.1, r.2.forget_flag))
        = (send_packet_with_retry_loop connection data len env fuel retries w).map
          (fun r => (r.1, r.2.forget_flag)) := by
  intro fuel
  induction fuel with
  | zero =>
    intro retries w b
    simp [send_packet_with_retry_loop]
  | succ f ih =>
    intro retries w b
    by_cases hr : retries < MAX_RETRIES
    · cases connection with
      | none =>
        rw [loop_null data len env f retries _ hr, loop_null data len env f retries _ hr]
        simp [World.with_flag, World.forget_flag]
      | some c =>
        rw [loop_step c data len env f retries _ hr, loop_step c data len env f retries w hr]
        have ht : (w.with_flag b).tick = w.tick := rfl
        rw [ht]
        obtain ⟨b', hb⟩ := attempt_world_with_flag data len (env w.tick) w b
        rw [hb]
        by_cases hp : (env w.tick).positive = true
        · simp [hp, World.with_flag, World.forget_flag, World.count_success]
        · simp only [hp, Bool.false_eq_true, if_false]
          exact ih _ _ _
    · rw [loop_exhausted connection data len env f retries _ hr,
        loop_exhausted connection data len env f retries w hr]
      simp [World.with_flag, World.forget_flag, World.count_fail]

/-- C14: a positive acknowledgement processed while no attempt is awaiting never
resolves a later wait: for two starting states that differ only in
`last_send_success`, `send_packet_with_retry` run against the same write results and
wait events returns, and it returns the same result and leaves the same state apart
from `last_send_success` (same counters, same calls made, same number of attempts);
with a stale `last_send_success = true` and three timeouts the call fails. -/
theorem send_packet_with_retry_ignores_stale_flag (fuel : Nat) (connection : Option Nat)
    (data : List Nat) (len : Nat) (env : Nat → Attempt) (w : World) (flag : Bool)
    (hfuel : MAX_RETRIES < fuel) :
    (∃ b w1 w2,
      send_packet_with_retry fuel connection data len env w = some (b, w1) ∧
      send_packet_with_retry fuel connection data len env (w.with_flag flag) = some (b, w2) ∧
      w2.forget_flag = w1.forget_flag ∧
      w2.m_state.success_count - w.m_state.success_count
        = w1.m_state.success_count - w.m_state.success_count ∧
      w2.m_state.fail_count - w.m_state.fail_count
        = w1.m_state.fail_count - w.m_state.fail_count) ∧
    (send_packet_with_retry 4 (some 1) data len env_timeouts (world_init.with_flag true)).map
      (fun r => r.1) = some false := by
  refine ⟨?_, ?_⟩
  · have hsame := loop_with_flag connection data len env fuel 0 w flag
    have hret : ∃ b w1, send_packet_with_retry fuel connection data len env w = some (b, w1) := by
      cases connection with
      | none =>
        obtain ⟨f, rfl⟩ : ∃ f, fuel = f + 1 := ⟨fuel - 1, by omega⟩
        exact ⟨false, w, loop_null data len env f 0 w (by decide)⟩
      | some c =>
        obtain ⟨b, w', hrun, _⟩ :=
          loop_spec c data len env 3 fuel 0 w (by simp [MAX_RETRIES]) hfuel
        exact ⟨b, w', hrun⟩
    obtain ⟨b, w1, h1⟩ := hret
    unfold send_packet_with_retry at h1 ⊢
    rw [h1] at hsame
    cases h2 : send_packet_with_retry_loop connection data len env fuel 0 (w.with_flag flag) with
    | none => rw [h2] at hsame; simp at hsame
    | some r =>
      rw [h2] at hsame
      simp only [Option.map_some', Option.some.injEq, Prod.mk.injEq] at hsame
      obtain ⟨hb, hw⟩ := hsame
      refine ⟨b, w1, r.2, h1, ?_, hw, ?_, ?_⟩
      · rw [← hb]
      · have := congrArg (fun x : World => x.m_state.success_count) hw
        simp only [World.forget_flag] at this
        rw [this]
      · have := congrArg (fun x : World => x.m_state.fail_count) hw
        simp only [World.forget_flag] at this
        rw [this]
  · obtain ⟨b, w', hrun, _, htrue, _⟩ :=
      loop_spec 1 data len env_timeouts 3 4 0 (world_init.with_flag true)
        (by simp [MAX_RETRIES]) (by decide)
    unfold send_packet_with_retry
    rw [hrun]
    cases b with
    | false => rfl
    | true =>
      obtain ⟨k, _, _, hpos, _⟩ := htrue rfl
      simp [Attempt.positive, env_timeouts, Attempt.timed_out] at hpos

/-- Witness for C14: the initial state against the same state with a stale
`last_send_success = true`, on a transport whose third attempt is acknowledged. -/
theorem send_packet_with_retry_ignores_stale_flag_witness :
    MAX_RETRIES < 4 ∧
    ∃ b w1 w2,
      send_packet_with_retry 4 (some 1) [0xA0, 3, 0, 0xA3] 4 env_third_acked world_init
        = some (b, w1) ∧
      send_packet_with_retry 4 (some 1) [0xA0, 3, 0, 0xA3] 4 env_third_acked
        (world_init.with_flag true) = some (b, w2) ∧
      w2.forget_flag = w1.forget_flag ∧
      w2.m_state.success_count - world_init.m_state.success_count
        = w1.m_state.success_count - world_init.m_state.success_count ∧
      w2.m_state.fail_count - world_init.m_state.fail_count
        = w1.m_state.fail_count - world_init.m_state.fail_count :=
  ⟨by decide,
    (send_packet_with_retry_ignores_stale_flag 4 (some 1) [0xA0, 3, 0, 0xA3] 4 env_third_acked
      world_init true (by decide)).1⟩

/-! ## Segmented send: helper lemmas -/

theorem memcpy_succ (dst : List Nat) (off : Nat) (src : List Nat) (n : Nat) :
    memcpy dst off src (n + 1) = (memcpy dst off src n).set (off + n) (src.getD n 0) := by
  unfold memcpy
  rw [List.range_succ, List.foldl_append]
  rfl

theorem memcpy_congr (dst : List Nat) (off : Nat) (src src2 : List Nat) (n : Nat)
    (h : ∀ j, j < n → src.getD j 0 = src2.getD j 0) :
    memcpy dst off src n = memcpy dst off src2 n := by
  induction n with
  | zero => rfl
  | succ m ih =>
    rw [memcpy_succ, memcpy_succ, ih (fun j hj => h j (by omega)), h m (by omega)]

theorem memcpy_whole (dst src : List Nat) (n : Nat) (hd : dst.length = n) :
    memcpy dst 0 src n = (List.range n).map (fun j => src.getD j 0) := by
  have hc := memcpy_congr dst 0 src ((List.range n).map (fun j => src.getD j 0)) n
    (fun j hj => by
      rw [List.getD_eq_getElem?_getD ((List.range n).map _), List.getElem?_map,
        List.getElem?_range hj]
      rfl)
  rw [hc]
  have := memcpy_after_front [] dst ((List.range n).map (fun j => src.getD j 0)) 0 n rfl
    (by omega) (by simp)
  simp only [List.nil_append] at this
  rw [this, List.take_of_length_le (by simp), List.drop_of_length_le (by omega),
    List.append_nil]

theorem current_len_le (total_packets data_len i : Nat) :
    current_len total_packets data_len i ≤ 64 := by
  unfold current_len
  split
  · split <;> omega
  · omega

theorem build_chunk_eq (total_packets : Nat) (a3_data : ble_cmd_a3_t) (data : List Nat)
    (data_len i : Nat) (hd : a3_data.data.length = 64) :
    build_chunk total_packets a3_data data data_len i =
      ⟨69,
        ⟨CMD_A3, (i + 1) % 256, current_len total_packets data_len i,
          (List.range 64).map (fun j => (data.drop (i * 64)).getD j 0),
          calculate_checksum ((List.range 64).map (fun j => (data.drop (i * 64)).getD j 0)) 64⟩,
        [CMD_A3, (i + 1) % 256, current_len total_packets data_len i]
          ++ (List.range 64).map (fun j => (data.drop (i * 64)).getD j 0)
          ++ [((calculate_checksum
                ((List.range 64).map (fun j => (data.drop (i * 64)).getD j 0)) 64) >>> 8)
                  &&& 0xFF,
              (calculate_checksum
                ((List.range 64).map (fun j => (data.drop (i * 64)).getD j 0)) 64) &&& 0xFF]
          ++ [0]⟩ := by
  have hcl := current_len_le total_packets data_len i
  have hmod : current_len total_packets data_len i % 256
      = current_len total_packets data_len i := Nat.mod_eq_of_lt (by omega)
  unfold build_chunk
  simp only [memcpy_whole a3_data.data (data.drop (i * 64)) 64 hd, hmod]
  rw [build_a3_packet_eq _ _ 70 (by decide) (by simp) hcl (by simp)]
  simp

theorem chunk_packet_eq (total_packets : Nat) (data : List Nat) (data_len i : Nat) :
    chunk_packet total_packets data data_len i =
      [CMD_A3, (i + 1) % 256, current_len total_packets data_len i]
        ++ (List.range 64).map (fun j => (data.drop (i * 64)).getD j 0)
        ++ [((calculate_checksum
              ((List.range 64).map (fun j => (data.drop (i * 64)).getD j 0)) 64) >>> 8)
                &&& 0xFF,
            (calculate_checksum
              ((List.range 64).map (fun j => (data.drop (i * 64)).getD j 0)) 64) &&& 0xFF] := by
  unfold chunk_packet
  rw [build_chunk_eq _ _ _ _ _ (by simp)]
  have hl : ([CMD_A3, (i + 1) % 256, current_len total_packets data_len i]
        ++ (List.range 64).map (fun j => (data.drop (i * 64)).getD j 0)
        ++ [((calculate_checksum
              ((List.range 64).map (fun j => (data.drop (i * 64)).getD j 0)) 64) >>> 8)
                &&& 0xFF,
            (calculate_checksum
              ((List.range 64).map (fun j => (data.drop (i * 64)).getD j 0)) 64) &&& 0xFF]).length
      = 69 := by simp
  exact List.take_left' hl

theorem build_chunk_take (total_packets : Nat) (a3_data : ble_cmd_a3_t) (data : List Nat)
    (data_len i : Nat) (hd : a3_data.data.length = 64) :
    (build_chunk total_packets a3_data data data_len i).ret = 69 ∧
    (build_chunk total_packets a3_data data data_len i).cmd_data.data.length = 64 ∧
    (build_chunk total_packets a3_data data data_len i).buffer.take 69
      = chunk_packet total_packets data data_len i := by
  unfold chunk_packet
  rw [build_chunk_eq _ _ _ _ _ hd, build_chunk_eq _ _ _ _ _ (by simp)]
  simp

theorem chunk_packet_length (total_packets : Nat) (data : List Nat) (data_len i : Nat) :
    (chunk_packet total_packets data data_len i).length = 69 := by
  rw [chunk_packet_eq]; simp

theorem attempt_world_take (data : List Nat) (len : Nat) (a : Attempt) (w : World) :
    attempt_world (data.take len) len a w = attempt_world data len a w := by
  unfold attempt_world
  simp only [List.take_take, Nat.min_self]

theorem loop_take (connection : Option Nat) (data : List Nat) (len : Nat)
    (env : Nat → Attempt) :
    ∀ (fuel retries : Nat) (w : World),
      send_packet_with_retry_loop connection (data.take len) len env fuel retries w
        = send_packet_with_retry_loop connection data len env fuel retries w := by
  intro fuel
  induction fuel with
  | zero => intro retries w; simp [send_packet_with_retry_loop]
  | succ f ih =>
    intro retries w
    by_cases hr : retries < MAX_RETRIES
    · cases connection with
      | none => rw [loop_null _ _ _ _ _ _ hr, loop_null _ _ _ _ _ _ hr]
      | some c =>
        rw [loop_step c _ _ _ _ _ _ hr, loop_step c _ _ _ _ _ _ hr, attempt_world_take, ih]
    · rw [loop_exhausted _ _ _ _ _ _ _ hr, loop_exhausted _ _ _ _ _ _ _ hr]

theorem send_of_take (fuel : Nat) (connection : Option Nat) (buffer : List Nat) (len : Nat)
    (env : Nat → Attempt) (w : World) (h : len ≤ buffer.length) :
    send_packet_with_retry fuel connection (buffer.take len) (buffer.take len).length env w
      = send_packet_with_retry fuel connection buffer len env w := by
  have hl : (buffer.take len).length = len := by simp [h]
  rw [hl]
  unfold send_packet_with_retry
  exact loop_take connection buffer len env fuel 0 w

theorem header_build (a2_data : ble_cmd_a2_t) (htl : a2_data.type_list.length = 16) :
    (build_a2_packet a2_data (List.replicate 23 0) 23).ret = 23 ∧
    (build_a2_packet a2_data (List.replicate 23 0) 23).cmd_data.total_packets
      = a2_data.total_packets ∧
    (build_a2_packet a2_data (List.replicate 23 0) 23).buffer.length = 23 := by
  rw [build_a2_packet_eq _ _ 23 (by decide) (by simp) htl]
  simp [htl]

theorem send_a3_loop_refines (fuel_send : Nat) (connection : Option Nat)
    (a2_data : ble_cmd_a2_t) (data : List Nat) (data_len : Nat) (env : Nat → Attempt)
    (htp : a2_data.total_packets ≤ 255) :
    ∀ (k fuel i : Nat) (a3_data : ble_cmd_a3_t) (w : World),
      i + k = a2_data.total_packets → k < fuel → a3_data.data.length = 64 →
      (send_a3_loop fuel_send connection a2_data data data_len env fuel i a3_data w).map
          (fun s => (s.ret, s.world))
        = deliver_sequence fuel_send connection env
            ((List.range' i k).map (chunk_packet a2_data.total_packets data data_len)) w := by
  intro k
  induction k with
  | zero =>
    intro fuel i a3_data w hik hf hd
    obtain ⟨f, rfl⟩ : ∃ f, fuel = f + 1 := ⟨fuel - 1, by omega⟩
    rw [send_a3_loop]
    simp [show ¬ i < a2_data.total_packets by omega, deliver_sequence]
  | succ k ih =>
    intro fuel i a3_data w hik hf hd
    obtain ⟨f, rfl⟩ : ∃ f, fuel = f + 1 := ⟨fuel - 1, by omega⟩
    obtain ⟨hret, hlen, htake⟩ :=
      build_chunk_take a2_data.total_packets a3_data data data_len i hd
    have hbl : 69 ≤ (build_chunk a2_data.total_packets a3_data data data_len i).buffer.length := by
      rw [build_chunk_eq _ _ _ _ _ hd]; simp
    have hsend := send_of_take fuel_send connection
      (build_chunk a2_data.total_packets a3_data data data_len i).buffer 69 env w hbl
    rw [htake] at hsend
    rw [send_a3_loop]
    simp only [show i < a2_data.total_packets by omega, if_true, hret]
    rw [List.range'_succ, List.map_cons, deliver_sequence, hsend]
    simp only [show (69 : Nat) ≠ 0 by decide, if_false]
    cases hres : send_packet_with_retry fuel_send connection
        (build_chunk a2_data.total_packets a3_data data data_len i).buffer 69 env w with
    | none => rfl
    | some r =>
      obtain ⟨ok, w1⟩ := r
      cases ok with
      | false => rfl
      | true =>
        simp only [Bool.not_true, Bool.false_eq_true, if_false, if_true]
        rw [show (i + 1) % 256 = i + 1 from Nat.mod_eq_of_lt (by omega)]
        exact ih f (i + 1) _ w1 (by omega) (by omega) hlen

theorem combination_refines (fuel : Nat) (connection : Option Nat) (a2_data : ble_cmd_a2_t)
    (a3_data : ble_cmd_a3_t) (data : List Nat) (data_len : Nat) (env : Nat → Attempt)
    (w : World) (htp : a2_data.total_packets ≤ 255) (hfuel : a2_data.total_packets < fuel)
    (htl : a2_data.type_list.length = 16) (hd : a3_data.data.length = 64) :
    (send_a2_a3_combination fuel connection a2_data a3_data data data_len env w).map
        (fun s => (s.ret, s.world))
      = deliver_sequence fuel connection env (combination_packets a2_data data data_len) w := by
  obtain ⟨hret, htot, hlen⟩ := header_build a2_data htl
  have hsend := send_of_take fuel connection
    (build_a2_packet a2_data (List.replicate 23 0) 23).buffer 23 env w (by omega)
  unfold send_a2_a3_combination combination_packets
  rw [deliver_sequence]
  unfold header_packet
  rw [hsend]
  simp only [hret, show (23 : Nat) ≠ 0 by decide, if_false]
  cases hres : send_packet_with_retry fuel connection
      (build_a2_packet a2_data (List.replicate 23 0) 23).buffer 23 env w with
  | none => rfl
  | some r =>
    obtain ⟨ok, w1⟩ := r
    cases ok with
    | false => rfl
    | true =>
      simp only [Bool.not_true, Bool.false_eq_true, if_false, if_true]
      have h := send_a3_loop_refines fuel connection
        (build_a2_packet a2_data (List.replicate 23 0) 23).cmd_data data data_len env
        (by rw [htot]; exact htp) a2_data.total_packets fuel 0 a3_data w1
        (by rw [htot]; omega) hfuel hd
      rw [htot] at h
      rw [h, List.range_eq_range']

theorem attempt_world_events (data : List Nat) (len : Nat) (a : Attempt) (w : World) :
    ∃ rest, (attempt_world data len a w).trace
        = w.trace ++ Event.write_char_by_uuid (data.take len) :: rest ∧
      ∀ e, e ∈ rest → (e.packet = none ∨ e.packet = some (data.take len)) := by
  refine ⟨((attempt_world data len a w).trace.drop w.trace.length).drop 1, ?_, ?_⟩ <;>
    unfold attempt_world <;> simp only [run_callbacks_eq] <;>
    by_cases hu : a.ret_uuid = 0 <;> by_cases hf : a.write_failed = true <;>
    simp [hu, hf, Event.packet]
  all_goals
    intro e he
    rcases he with he | he | he
    · rw [he.2]; simp
    · rw [he]; simp
    · rw [he.2]; simp

theorem loop_events (c : Nat) (data : List Nat) (len : Nat) (env : Nat → Attempt) :
    ∀ (n fuel retries : Nat) (w : World), retries + n = MAX_RETRIES → n < fuel →
    ∃ b w' evs, send_packet_with_retry_loop (some c) data len env fuel retries w = some (b, w') ∧
      w'.trace = w.trace ++ evs ∧
      (∀ e, e ∈ evs → (e.packet = none ∨ e.packet = some (data.take len))) ∧
      (0 < n → ∃ rest, evs = Event.write_char_by_uuid (data.take len) :: rest) := by
  intro n
  induction n with
  | zero =>
    intro fuel retries w hr hf
    obtain ⟨f, rfl⟩ : ∃ f, fuel = f + 1 := ⟨fuel - 1, by omega⟩
    refine ⟨false, w.count_fail, [], loop_exhausted _ _ _ _ _ _ _ (by omega), ?_, ?_, ?_⟩
    · simp [World.count_fail]
    · intro e he; cases he
    · intro h; cases h
  | succ n ih =>
    intro fuel retries w hr hf
    obtain ⟨f, rfl⟩ : ∃ f, fuel = f + 1 := ⟨fuel - 1, by omega⟩
    rw [loop_step c data len env f retries w (by omega)]
    obtain ⟨r1, t1, m1⟩ := attempt_world_events data len (env w.tick) w
    by_cases hp : (env w.tick).positive = true
    · rw [if_pos hp]
      refine ⟨true, _, Event.write_char_by_uuid (data.take len) :: r1, rfl, ?_, ?_, ?_⟩
      · simpa [World.count_success] using t1
      · intro e he
        rcases List.mem_cons.mp he with h | h
        · rw [h]; right; rfl
        · exact m1 e h
      · intro _; exact ⟨r1, rfl⟩
    · rw [if_neg hp]
      obtain ⟨b, w', e2, hrun, t2, m2, _⟩ :=
        ih f (retries + 1) (attempt_world data len (env w.tick) w) (by omega) (by omega)
      refine ⟨b, w', Event.write_char_by_uuid (data.take len) :: (r1 ++ e2), hrun, ?_, ?_, ?_⟩
      · rw [t2, t1]; simp
      · intro e he
        rcases List.mem_cons.mp he with h | h
        · rw [h]; right; rfl
        · rcases List.mem_append.mp h with h | h
          · exact m1 e h
          · exact m2 e h
      · intro _; exact ⟨r1 ++ e2, rfl⟩

/-- What one call of `send_packet_with_retry` with a non-null connection does, in the
form the sequence lemmas need. -/
theorem send_summary (fuel c : Nat) (data : List Nat) (len : Nat) (env : Nat → Attempt)
    (w : World) (hfuel : MAX_RETRIES < fuel) :
    ∃ b w' rest, send_packet_with_retry fuel (some c) data len env w = some (b, w') ∧
      w'.trace = w.trace ++ Event.write_char_by_uuid (data.take len) :: rest ∧
      (∀ e, e ∈ rest → (e.packet = none ∨ e.packet = some (data.take len))) ∧
      w'.m_state.success_count = w.m_state.success_count + (if b then 1 else 0) ∧
      w'.m_state.fail_count = w.m_state.fail_count + (if b then 0 else 1) ∧
      ((env w.tick).positive = true → b = true) := by
  obtain ⟨b, w', evs, hrun, t, m, hhead⟩ :=
    loop_events c data len env 3 fuel 0 w (by simp [MAX_RETRIES]) hfuel
  obtain ⟨b2, w2, hrun2, _, htrue, hfalse⟩ :=
    loop_spec c data len env 3 fuel 0 w (by simp [MAX_RETRIES]) hfuel
  rw [hrun] at hrun2
  simp only [Option.some.injEq, Prod.mk.injEq] at hrun2
  obtain ⟨rfl, rfl⟩ := hrun2
  obtain ⟨rest, rfl⟩ := hhead (by decide)
  refine ⟨b, w', rest, hrun, t, fun e he => m e (List.mem_cons_of_mem _ he), ?_, ?_, ?_⟩
  · cases b with
    | true => obtain ⟨k, _, _, _, _, hs, _⟩ := htrue rfl; simpa using hs
    | false => obtain ⟨_, _, _, hs⟩ := hfalse rfl; simpa using hs
  · cases b with
    | true => obtain ⟨k, _, _, _, _, _, hfl⟩ := htrue rfl; simpa using hfl
    | false => obtain ⟨_, _, hfl, _⟩ := hfalse rfl; simpa using hfl
  · intro hp
    cases b with
    | true => rfl
    | false =>
      obtain ⟨_, hnone, _⟩ := hfalse rfl
      have := hnone 0 (by decide)
      rw [Nat.add_zero, hp] at this
      cases this

/-- What `deliver_sequence` does with a non-null connection: it returns, having delivered
the first `k` packets; it succeeds exactly when `k` is the number of packets; every
write it made carries one of the first `k + 1` packets; the counters record `k`
successes and, on failure, one failure. -/
theorem deliver_summary (fuel c : Nat) (env : Nat → Attempt) (hfuel : MAX_RETRIES < fuel) :
    ∀ (ps : List (List Nat)) (w : World),
    ∃ b w' k evs, deliver_sequence fuel (some c) env ps w = some (b, w') ∧
      k ≤ ps.length ∧ (b = true ↔ k = ps.length) ∧
      w'.trace = w.trace ++ evs ∧
      (∀ e, e ∈ evs → (e.packet = none ∨ ∃ q, q ∈ ps.take (k + 1) ∧ e.packet = some q)) ∧
      (∀ p rest, ps = p :: rest → ∃ tl, evs = Event.write_char_by_uuid p :: tl) ∧
      w'.m_state.success_count = w.m_state.success_count + k ∧
      w'.m_state.fail_count = w.m_state.fail_count + (if b then 0 else 1) ∧
      ((∀ j, (env j).positive = true) → b = true) := by
  intro ps
  induction ps with
  | nil =>
    intro w
    refine ⟨true, w, 0, [], rfl, le_refl _, by simp, by simp, ?_, ?_, by simp, by simp, ?_⟩
    · intro e he; cases he
    · intro p rest h; cases h
    · intro _; rfl
  | cons p ps ih =>
    intro w
    obtain ⟨b1, w1, r1, hrun1, t1, m1, s1, f1, hp1⟩ :=
      send_summary fuel c p p.length env w hfuel
    rw [List.take_length] at t1 m1
    rw [deliver_sequence, hrun1]
    cases b1 with
    | false =>
      refine ⟨false, w1, 0, Event.write_char_by_uuid p :: r1, by simp, by simp, by simp, t1,
        ?_, ?_, by simpa using s1, by simpa using f1, ?_⟩
      · intro e he
        rcases List.mem_cons.mp he with h | h
        · right; exact ⟨p, by simp, by rw [h]; rfl⟩
        · rcases m1 e h with h2 | h2
          · left; exact h2
          · right; exact ⟨p, by simp, h2⟩
      · intro p2 rest h
        simp only [List.cons.injEq] at h
        exact ⟨r1, by rw [h.1]⟩
      · intro hall
        have := hp1 (hall _)
        cases this
    | true =>
      obtain ⟨b, w', k, e2, hrun, hk, hiff, t2, m2, _, s2, f2, hall2⟩ := ih w1
      refine ⟨b, w', k + 1, Event.write_char_by_uuid p :: (r1 ++ e2), by simpa using hrun,
        by simp; omega, ?_, ?_, ?_, ?_, ?_, ?_, hall2⟩
      · rw [hiff]; simp
      · rw [t2, t1]; simp
      · intro e he
        rcases List.mem_cons.mp he with h | h
        · right; exact ⟨p, by simp, by rw [h]; rfl⟩
        · rcases List.mem_append.mp h with h | h
          · rcases m1 e h with h2 | h2
            · left; exact h2
            · right; exact ⟨p, by simp, h2⟩
          · rcases m2 e h with h2 | ⟨q, hq, h2⟩
            · left; exact h2
            · right; exact ⟨q, by simp [List.take_succ_cons]; right; exact hq, h2⟩
      · intro p2 rest h
        simp only [List.cons.injEq] at h
        exact ⟨r1 ++ e2, by rw [h.1]⟩
      · rw [s2, s1]; simp; omega
      · rw [f2, f1]; simp

theorem header_packet_eq (a2_data : ble_cmd_a2_t) (htl : a2_data.type_list.length = 16) :
    header_packet a2_data =
      [a2_data.cmd, (a2_data.total_bytes >>> 8) &&& 0xFF, a2_data.total_bytes &&& 0xFF,
          a2_data.total_packets, a2_data.char_len] ++ a2_data.type_list
        ++ [((calculate_checksum
            ([a2_data.cmd, (a2_data.total_bytes >>> 8) &&& 0xFF, a2_data.total_bytes &&& 0xFF,
              a2_data.total_packets, a2_data.char_len] ++ a2_data.type_list) 20) >>> 8)
                &&& 0xFF,
            (calculate_checksum
            ([a2_data.cmd, (a2_data.total_bytes >>> 8) &&& 0xFF, a2_data.total_bytes &&& 0xFF,
              a2_data.total_packets, a2_data.char_len] ++ a2_data.type_list) 20) &&& 0xFF] := by
  unfold header_packet
  rw [build_a2_packet_eq _ _ 23 (by decide) (by simp) htl]
  simp [htl]

theorem header_packet_length (a2_data : ble_cmd_a2_t) (htl : a2_data.type_list.length = 16) :
    (header_packet a2_data).length = 23 := by
  rw [header_packet_eq _ htl]; simp [htl]

theorem chunk_packet_index (total_packets : Nat) (data : List Nat) (data_len i : Nat) :
    (chunk_packet total_packets data data_len i).getD 0 0 = CMD_A3 ∧
    (chunk_packet total_packets data data_len i).getD 1 0 = (i + 1) % 256 ∧
    (chunk_packet total_packets data data_len i).getD 2 0
      = current_len total_packets data_len i := by
  rw [chunk_packet_eq]; simp

theorem combination_packets_length (a2_data : ble_cmd_a2_t) (data : List Nat)
    (data_len : Nat) :
    (combination_packets a2_data data data_len).length = a2_data.total_packets + 1 := by
  simp [combination_packets]

theorem combination_packets_nodup (a2_data : ble_cmd_a2_t) (data : List Nat)
    (data_len : Nat) (htp : a2_data.total_packets ≤ 255)
    (htl : a2_data.type_list.length = 16) :
    (combination_packets a2_data data data_len).Nodup := by
  unfold combination_packets
  rw [List.nodup_cons]
  refine ⟨?_, ?_⟩
  · intro hmem
    obtain ⟨i, _, hi⟩ := List.mem_map.mp hmem
    have h1 := chunk_packet_length a2_data.total_packets data data_len i
    rw [hi, header_packet_length _ htl] at h1
    cases h1
  · refine List.Nodup.map_on ?_ (List.nodup_range _)
    intro x hx y hy hxy
    have h1 := (chunk_packet_index a2_data.total_packets data data_len x).2.1
    have h2 := (chunk_packet_index a2_data.total_packets data data_len y).2.1
    rw [hxy, h2] at h1
    have hx2 := List.mem_range.mp hx
    have hy2 := List.mem_range.mp hy
    omega

/-! ## Segmented send: the claims -/

/-- C12: `send_a2_a3_combination` is a strict all-or-nothing sequence. With a non-null
connection it returns, and what it does is exactly the in-order delivery of the header
packet and then the chunk packets 1..N by `send_packet_with_retry`, stopping at the
first failure. With `k` the number of packets delivered (each delivery raises
`success_count` by one), the call returns true if and only if `k = N + 1`; otherwise
`fail_count` is raised by one and every write made carries one of the first `k + 1`
packets of the sequence, whose packets are pairwise different: no write is issued for
any chunk after the one whose delivery failed. -/
theorem send_a2_a3_combination_all_or_nothing (fuel c : Nat) (a2_data : ble_cmd_a2_t)
    (a3_data : ble_cmd_a3_t) (data : List Nat) (data_len : Nat) (env : Nat → Attempt)
    (w : World) (hfuel : MAX_RETRIES < fuel) (hloop : a2_data.total_packets < fuel)
    (htp : a2_data.total_packets ≤ 255) (htl : a2_data.type_list.length = 16)
    (hd : a3_data.data.length = 64) :
    ∃ r k evs,
      send_a2_a3_combination fuel (some c) a2_data a3_data data data_len env w = some r ∧
      deliver_sequence fuel (some c) env (combination_packets a2_data data data_len) w
        = some (r.ret, r.world) ∧
      k ≤ a2_data.total_packets + 1 ∧
      (r.ret = true ↔ k = a2_data.total_packets + 1) ∧
      r.world.m_state.success_count = w.m_state.success_count + k ∧
      r.world.m_state.fail_count = w.m_state.fail_count + (if r.ret then 0 else 1) ∧
      r.world.trace = w.trace ++ evs ∧
      (∀ e, e ∈ evs → (e.packet = none ∨
        ∃ q, q ∈ (combination_packets a2_data data data_len).take (k + 1) ∧
          e.packet = some q)) ∧
      (combination_packets a2_data data data_len).Nodup := by
  have href := combination_refines fuel (some c) a2_data a3_data data data_len env w
    htp hloop htl hd
  obtain ⟨b, w', k, evs, hrun, hk, hiff, t, m, _, hs, hf, _⟩ :=
    deliver_summary fuel c env hfuel (combination_packets a2_data data data_len) w
  rw [hrun] at href
  cases hres : send_a2_a3_combination fuel (some c) a2_data a3_data data data_len env w with
  | none => rw [hres] at href; simp at href
  | some r =>
    rw [hres] at href
    simp only [Option.map_some', Option.some.injEq, Prod.mk.injEq] at href
    obtain ⟨hb, hw⟩ := href
    rw [combination_packets_length] at hk hiff
    refine ⟨r, k, evs, rfl, ?_, hk, ?_, ?_, ?_, ?_, m,
      combination_packets_nodup a2_data data data_len htp htl⟩
    · rw [hrun, hb, hw]
    · rw [hb]; exact hiff
    · rw [hw]; exact hs
    · rw [hw, hb]; exact hf
    · rw [hw]; exact t

/-- Witness for C12: a header and two chunks on a transport where every wait times
out. -/
theorem send_a2_a3_combination_all_or_nothing_witness :
    MAX_RETRIES < 4 ∧ a2_demo.total_packets < 4 ∧ a2_demo.total_packets ≤ 255 ∧
    a2_demo.type_list.length = 16 ∧ a3_blank.data.length = 64 ∧
    ∃ r k evs,
      send_a2_a3_combination 4 (some 1) a2_demo a3_blank (List.replicate 128 7) 100
        env_timeouts world_init = some r ∧
      deliver_sequence 4 (some 1) env_timeouts
        (combination_packets a2_demo (List.replicate 128 7) 100) world_init
        = some (r.ret, r.world) ∧
      k ≤ a2_demo.total_packets + 1 ∧
      (r.ret = true ↔ k = a2_demo.total_packets + 1) ∧
      r.world.m_state.success_count = world_init.m_state.success_count + k ∧
      r.world.m_state.fail_count = world_init.m_state.fail_count + (if r.ret then 0 else 1) ∧
      r.world.trace = world_init.trace ++ evs ∧
      (∀ e, e ∈ evs → (e.packet = none ∨
        ∃ q, q ∈ (combination_packets a2_demo (List.replicate 128 7) 100).take (k + 1) ∧
          e.packet = some q)) ∧
      (combination_packets a2_demo (List.replicate 128 7) 100).Nodup :=
  ⟨by decide, by decide, by decide, by decide, by decide,
    send_a2_a3_combination_all_or_nothing 4 1 a2_demo a3_blank (List.replicate 128 7) 100
      env_timeouts world_init (by decide) (by decide) (by decide) (by decide) (by decide)⟩

/-- C16: in `send_a2_a3_combination`, for every payload length `L >= 1` with
`total_packets = N = ceil(L/64) <= 255`, the valid-length byte (offset 2) of chunk `i`
is 64 for every `i` in `1..N-1`, and for chunk `N` it is `L - 64*(N-1)`, which is 64
when `L` is a multiple of 64; for `L = 180`, `N = 3` the valid lengths are
`[64, 64, 52]`. -/
theorem chunk_valid_length (L N i : Nat) (data : List Nat) (hL : 1 ≤ L)
    (hN : N = chunks_needed L) (hN255 : N ≤ 255) (hi1 : 1 ≤ i) (hiN : i ≤ N) :
    (chunk_packet N data L (i - 1))[2]? = some (if i < N then 64 else L - 64 * (N - 1)) ∧
    (L % 64 = 0 → L - 64 * (N - 1) = 64) ∧
    chunks_needed 180 = 3 ∧
    (List.range 3).map (fun j => (chunk_packet 3 data 180 j).getD 2 0) = [64, 64, 52] := by
  refine ⟨?_, ?_, by decide, ?_⟩
  · rw [chunk_packet_eq]
    simp only [List.cons_append, List.nil_append, List.getElem?_cons_succ,
      List.getElem?_cons_zero, Option.some.injEq]
    unfold current_len
    unfold chunks_needed at hN
    by_cases hlast : i < N
    · rw [if_neg (by omega), if_pos hlast]
    · rw [if_pos (by omega), if_neg hlast]
      split <;> omega
  · intro hmod
    unfold chunks_needed at hN
    omega
  · have e : ∀ j, (chunk_packet 3 data 180 j).getD 2 0 = current_len 3 180 j :=
      fun j => (chunk_packet_index 3 data 180 j).2.2
    simp only [e]
    decide

/-- Witness for C16: the last of the three chunks of a 180-byte payload. -/
theorem chunk_valid_length_witness :
    1 ≤ 180 ∧ 3 = chunks_needed 180 ∧ 3 ≤ 255 ∧ 1 ≤ 3 ∧ 3 ≤ 3 ∧
    (chunk_packet 3 (List.replicate 192 7) 180 (3 - 1))[2]?
      = some (if 3 < 3 then 64 else 180 - 64 * (3 - 1)) :=
  ⟨by decide, by decide, by decide, by decide, by decide,
    (chunk_valid_length 180 3 3 (List.replicate 192 7) (by decide) (by decide) (by decide)
      (by decide) (by decide)).1⟩

theorem sum_current_len_front (N L : Nat) :
    ∀ m, m + 1 ≤ N → ((List.range m).map (fun i => current_len N L i)).sum = 64 * m := by
  intro m
  induction m with
  | zero => intro _; rfl
  | succ k ih =>
    intro hk
    rw [List.range_succ, List.map_append, List.sum_append, ih (by omega)]
    simp only [List.map_cons, List.map_nil, List.sum_cons, List.sum_nil, Nat.add_zero]
    unfold current_len
    rw [if_neg (by omega)]
    omega

/-- C17: in `send_a2_a3_combination`, for every payload length `L` with
`total_packets = N = ceil(L/64) <= 255` (including `L = 0`, `N = 0`), the sum over all
`N` chunks of the valid-length byte of the chunk equals `L`. -/
theorem chunk_valid_lengths_sum (L N : Nat) (data : List Nat) (hN : N = chunks_needed L)
    (hN255 : N ≤ 255) :
    ((List.range N).map (fun i => (chunk_packet N data L i).getD 2 0)).sum = L := by
  have e : ∀ i, (chunk_packet N data L i).getD 2 0 = current_len N L i :=
    fun i => (chunk_packet_index N data L i).2.2
  simp only [e]
  unfold chunks_needed at hN
  cases N with
  | zero => simp only [List.range_zero, List.map_nil, List.sum_nil]; omega
  | succ n =>
    rw [List.range_succ, List.map_append, List.sum_append,
      sum_current_len_front (n + 1) L n (le_refl _)]
    simp only [List.map_cons, List.map_nil, List.sum_cons, List.sum_nil, Nat.add_zero]
    unfold current_len
    rw [if_pos (by omega)]
    split <;> omega

/-- Witness for C17: a 180-byte payload in three chunks. -/
theorem chunk_valid_lengths_sum_witness :
    3 = chunks_needed 180 ∧ 3 ≤ 255 ∧
    ((List.range 3).map (fun i => (chunk_packet 3 (List.replicate 192 7) 180 i).getD 2 0)).sum
      = 180 :=
  ⟨by decide, by decide,
    chunk_valid_lengths_sum 180 3 (List.replicate 192 7) (by decide) (by decide)⟩

/-- C18 (as stated, refuted): for a 1-byte payload handed over with a header struct in
which the caller declared 5 bytes and 2 chunks, `send_a2_a3_combination` on an
acknowledging transport succeeds after delivering 3 packets, the header and two chunk
packets, and its header declares byte count 5 and chunk count 2, although
`ceil(1/64) = 1` and the payload has 1 byte. -/
theorem send_a2_a3_combination_trusts_header :
    chunks_needed 1 = 1 ∧
    (send_a2_a3_combination 4 (some 1) a2_mismatch a3_blank (7 :: List.replicate 127 0) 1
        env_acked world_init).map
      (fun r => (r.ret, r.world.m_state.success_count,
        (r.world.trace.filterMap Event.packet).map (fun q => q.take 4)))
      = some (true, 3, [[0xA2, 0, 5, 2], [0xA3, 1, 64, 7], [0xA3, 2, 1, 0]]) := by
  decide

/-- C18 (amended): for every payload handed to `send_a2_a3_combination`, the number of
chunk packets produced is the `total_packets` the caller placed in the header struct and
the header packet declares the caller's `total_bytes` (big-endian) and `total_packets`;
the payload length is not consulted for either, so they are `L` and `ceil(L/64)` exactly
when the caller set them so. On a transport that acknowledges every attempt the call
delivers these `total_packets + 1` packets and returns true. -/
theorem send_a2_a3_combination_header_from_caller (fuel c : Nat) (a2_data : ble_cmd_a2_t)
    (a3_data : ble_cmd_a3_t) (data : List Nat) (data_len : Nat) (env : Nat → Attempt)
    (w : World) (hfuel : MAX_RETRIES < fuel) (hloop : a2_data.total_packets < fuel)
    (htp : a2_data.total_packets ≤ 255) (htl : a2_data.type_list.length = 16)
    (hd : a3_data.data.length = 64) (htb : a2_data.total_bytes < 65536) :
    (send_a2_a3_combination fuel (some c) a2_data a3_data data data_len env w).map
        (fun s => (s.ret, s.world))
      = deliver_sequence fuel (some c) env
          (header_packet a2_data ::
            (List.range a2_data.total_packets).map
              (fun i => chunk_packet a2_data.total_packets data data_len i)) w ∧
    ((List.range a2_data.total_packets).map
        (fun i => chunk_packet a2_data.total_packets data data_len i)).length
      = a2_data.total_packets ∧
    (header_packet a2_data).take 4
      = [a2_data.cmd, a2_data.total_bytes / 256, a2_data.total_bytes % 256,
          a2_data.total_packets] ∧
    ((∀ j, (env j).positive = true) →
      ∃ r, send_a2_a3_combination fuel (some c) a2_data a3_data data data_len env w = some r ∧
        r.ret = true ∧
        r.world.m_state.success_count
          = w.m_state.success_count + (a2_data.total_packets + 1)) := by
  have href := combination_refines fuel (some c) a2_data a3_data data data_len env w
    htp hloop htl hd
  refine ⟨href, by simp, ?_, ?_⟩
  · rw [header_packet_eq _ htl, shift_mask_hi _ htb, mask_lo]
    simp
  · intro hall
    obtain ⟨b, w', k, evs, hrun, hk, hiff, _, _, _, hs, _, hpos⟩ :=
      deliver_summary fuel c env hfuel (combination_packets a2_data data data_len) w
    rw [hrun] at href
    cases hres : send_a2_a3_combination fuel (some c) a2_data a3_data data data_len env w with
    | none => rw [hres] at href; simp at href
    | some r =>
      rw [hres] at href
      simp only [Option.map_some', Option.some.injEq, Prod.mk.injEq] at href
      obtain ⟨hb, hw⟩ := href
      have hbt := hpos hall
      have hk2 := hiff.mp hbt
      rw [combination_packets_length] at hk2
      exact ⟨r, rfl, by rw [hb]; exact hbt, by rw [hw, hs, hk2]; push_cast; rfl⟩

/-- Witness for C18 (amended): the 1-byte payload with a header struct that declares
5 bytes and 2 chunks. -/
theorem send_a2_a3_combination_header_from_caller_witness :
    MAX_RETRIES < 4 ∧ a2_mismatch.total_packets < 4 ∧ a2_mismatch.total_packets ≤ 255 ∧
    a2_mismatch.type_list.length = 16 ∧ a3_blank.data.length = 64 ∧
    a2_mismatch.total_bytes < 65536 ∧
    (header_packet a2_mismatch).take 4
      = [a2_mismatch.cmd, a2_mismatch.total_bytes / 256, a2_mismatch.total_bytes % 256,
          a2_mismatch.total_packets] :=
  ⟨by decide, by decide, by decide, by decide, by decide, by decide,
    (send_a2_a3_combination_header_from_caller 4 1 a2_mismatch a3_blank
      (7 :: List.replicate 127 0) 1 env_acked world_init (by decide) (by decide) (by decide)
      (by decide) (by decide) (by decide)).2.2.1⟩

theorem range_map_getD (l : List Nat) (n : Nat) (h : n ≤ l.length) :
    (List.range n).map (fun j => l.getD j 0) = l.take n := by
  apply List.ext_getElem?
  intro j
  by_cases hj : j < n
  · rw [List.getElem?_map, List.getElem?_range hj, List.getElem?_take_of_lt hj,
      List.getElem?_eq_getElem (by omega)]
    simp [List.getD_eq_getElem?_getD, List.getElem?_eq_getElem (show j < l.length by omega)]
  · rw [List.getElem?_eq_none (by simp; omega), List.getElem?_eq_none (by simp; omega)]

/-- C19 (as stated, refuted): a 1-byte payload `[7]` lying in memory in front of
sixty-three bytes `9`: the data block of its single chunk packet is the payload byte
followed by those sixty-three bytes, not by zero bytes. -/
theorem final_chunk_block_not_zero_padded :
    1 % 64 ≠ 0 ∧ chunks_needed 1 = 1 ∧
    ((chunk_packet 1 (7 :: List.replicate 63 9) 1 0).drop 3).take 64
      = 7 :: List.replicate 63 9 ∧
    ((chunk_packet 1 (7 :: List.replicate 63 9) 1 0).drop 3).take 64
      ≠ [7] ++ List.replicate 63 0 := by
  decide

/-- C19 (amended): for every payload whose length `L` is not a multiple of 64 (with
`N = ceil(L/64)`), lying in memory that is readable for `64 * N` bytes, the 64-byte data
block of the final chunk packet built by `send_a2_a3_combination` consists of the last
`L mod 64` payload bytes followed by the `64 - (L mod 64)` bytes that follow the
payload in memory (no zero fill is made). -/
theorem final_chunk_block (L N : Nat) (data : List Nat) (hmod : L % 64 ≠ 0)
    (hN : N = chunks_needed L) (hmem : 64 * N ≤ data.length) :
    ((chunk_packet N data L (N - 1)).drop 3).take 64
      = (data.take L).drop (64 * (N - 1)) ++ (data.drop L).take (64 - L % 64) ∧
    ((data.take L).drop (64 * (N - 1))).length = L % 64 := by
  unfold chunks_needed at hN
  have hblock : ((chunk_packet N data L (N - 1)).drop 3).take 64
      = (data.drop ((N - 1) * 64)).take 64 := by
    rw [chunk_packet_eq, range_map_getD _ 64 (by simp; omega)]
    simp only [List.cons_append, List.nil_append, List.drop_succ_cons, List.drop_zero,
      List.append_assoc]
    exact List.take_left' (by simp; omega)
  have hsplit : (64 : Nat) = L % 64 + (64 - L % 64) := by omega
  refine ⟨?_, ?_⟩
  · have ht : (data.drop ((N - 1) * 64)).take 64
        = (data.drop ((N - 1) * 64)).take (L % 64)
          ++ ((data.drop ((N - 1) * 64)).drop (L % 64)).take (64 - L % 64) := by
      have := @List.take_add _ (data.drop ((N - 1) * 64)) (L % 64) (64 - L % 64)
      rwa [← hsplit] at this
    rw [hblock, ht, List.drop_drop, List.drop_take]
    have h1 : L - 64 * (N - 1) = L % 64 := by omega
    have h2 : (N - 1) * 64 = 64 * (N - 1) := by omega
    have h3 : L % 64 + 64 * (N - 1) = L := by omega
    have h4 : 64 * (N - 1) + L % 64 = L := by omega
    simp only [h1, h2, h3, h4]
  · simp only [List.length_drop, List.length_take]
    omega

/-- Witness for C19 (amended): the last chunk of a 100-byte payload in 128 bytes of
memory. -/
theorem final_chunk_block_witness :
    100 % 64 ≠ 0 ∧ 2 = chunks_needed 100 ∧
    64 * 2 ≤ (List.replicate 100 7 ++ List.replicate 28 9).length ∧
    ((chunk_packet 2 (List.replicate 100 7 ++ List.replicate 28 9) 100 (2 - 1)).drop 3).take 64
      = ((List.replicate 100 7 ++ List.replicate 28 9).take 100).drop (64 * (2 - 1))
        ++ ((List.replicate 100 7 ++ List.replicate 28 9).drop 100).take (64 - 100 % 64) ∧
    (((List.replicate 100 7 ++ List.replicate 28 9).take 100).drop (64 * (2 - 1))).length
      = 100 % 64 :=
  ⟨by decide, by decide, by simp,
    final_chunk_block 100 2 (List.replicate 100 7 ++ List.replicate 28 9) (by decide)
      (by decide) (by simp)⟩

/-- C20 (as stated, refuted): a payload of 16321 bytes needs 256 chunks, yet
`send_a2_a3_combination`, given the header struct a caller gets for it, transmits the
header packet and returns true on an acknowledging transport. -/
theorem send_a2_a3_combination_oversize_not_rejected :
    255 * 64 < 16321 ∧ 255 < chunks_needed 16321 ∧
    (send_a2_a3_combination 4 (some 1) a2_oversize a3_blank (List.replicate 16321 0) 16321
        env_acked world_init).map
      (fun r => (r.ret, r.world.trace.countP Event.is_uuid_write,
        (r.world.trace.filterMap Event.packet).map (fun q => q.take 4)))
      = some (true, 1, [[0xA2, 0x3F, 0xC1, 0]]) := by
  decide

/-- C20 (amended): `send_a2_a3_combination` makes no payload-size check: also for a
payload that needs more than 255 chunks (`L > 16320`) it returns after transmitting the
header packet built from the caller's struct (its first transport call is the
UUID-addressed write of that packet) and handling the `total_packets` chunks, at most
255, that the caller declared; on a transport that acknowledges every attempt it
returns success. -/
theorem send_a2_a3_combination_no_size_check (fuel c : Nat) (a2_data : ble_cmd_a2_t)
    (a3_data : ble_cmd_a3_t) (data : List Nat) (data_len : Nat) (env : Nat → Attempt)
    (w : World) (hbig : 255 * 64 < data_len) (hfuel : MAX_RETRIES < fuel)
    (hloop : a2_data.total_packets < fuel) (htp : a2_data.total_packets ≤ 255)
    (htl : a2_data.type_list.length = 16) (hd : a3_data.data.length = 64) :
    255 < chunks_needed data_len ∧
    ∃ r tl,
      send_a2_a3_combination fuel (some c) a2_data a3_data data data_len env w = some r ∧
      r.world.trace = w.trace ++ Event.write_char_by_uuid (header_packet a2_data) :: tl ∧
      ((∀ j, (env j).positive = true) →
        r.ret = true ∧
        r.world.m_state.success_count
          = w.m_state.success_count + (a2_data.total_packets + 1)) := by
  refine ⟨by unfold chunks_needed; omega, ?_⟩
  have href := combination_refines fuel (some c) a2_data a3_data data data_len env w
    htp hloop htl hd
  obtain ⟨b, w', k, evs, hrun, hk, hiff, t, _, hhead, hs, _, hpos⟩ :=
    deliver_summary fuel c env hfuel (combination_packets a2_data data data_len) w
  rw [hrun] at href
  obtain ⟨tl, rfl⟩ := hhead (header_packet a2_data) _ rfl
  cases hres : send_a2_a3_combination fuel (some c) a2_data a3_data data data_len env w with
  | none => rw [hres] at href; simp at href
  | some r =>
    rw [hres] at href
    simp only [Option.map_some', Option.some.injEq, Prod.mk.injEq] at href
    obtain ⟨hb, hw⟩ := href
    refine ⟨r, tl, rfl, by rw [hw]; exact t, ?_⟩
    intro hall
    have hbt := hpos hall
    have hk2 := hiff.mp hbt
    rw [combination_packets_length] at hk2
    exact ⟨by rw [hb]; exact hbt, by rw [hw, hs, hk2]; push_cast; rfl⟩

/-- Witness for C20 (amended): the 16321-byte payload with the header struct a caller
gets for it. -/
theorem send_a2_a3_combination_no_size_check_witness :
    255 * 64 < 16321 ∧ MAX_RETRIES < 4 ∧ a2_oversize.total_packets < 4 ∧
    a2_oversize.total_packets ≤ 255 ∧ a2_oversize.type_list.length = 16 ∧
    a3_blank.data.length = 64 ∧
    255 < chunks_needed 16321 ∧
    ∃ r tl,
      send_a2_a3_combination 4 (some 1) a2_oversize a3_blank (List.replicate 16321 0) 16321
        env_acked world_init = some r ∧
      r.world.trace
        = world_init.trace ++ Event.write_char_by_uuid (header_packet a2_oversize) :: tl ∧
      ((∀ j, (env_acked j).positive = true) →
        r.ret = true ∧
        r.world.m_state.success_count
          = world_init.m_state.success_count + (a2_oversize.total_packets + 1)) :=
  ⟨by decide, by decide, by decide, by decide, by decide, by decide,
    send_a2_a3_combination_no_size_check 4 1 a2_oversize a3_blank (List.replicate 16321 0)
      16321 env_acked world_init (by decide) (by decide) (by decide) (by decide) (by decide)
      (by decide)⟩

/-! ## Packet codec: failure paths, command bytes and round trip -/

/-- C21: for each of `build_a0_packet`, `build_a1_packet`, `build_a2_packet` and
`build_a3_packet` and every input, when `buffer_len` is smaller than the wire size of the
kind (4, 8, 23, 69) the call returns 0 and leaves every byte of the destination buffer
(and the struct) unchanged. -/
theorem builders_reject_short_buffer (a0_data : ble_cmd_a0_t) (a1_data : ble_cmd_a1_t)
    (a2_data : ble_cmd_a2_t) (a3_data : ble_cmd_a3_t) (buffer : List Nat)
    (buffer_len : Nat) :
    (buffer_len < 4 → build_a0_packet a0_data buffer buffer_len = ⟨0, a0_data, buffer⟩) ∧
    (buffer_len < 8 → build_a1_packet a1_data buffer buffer_len = ⟨0, a1_data, buffer⟩) ∧
    (buffer_len < 23 → build_a2_packet a2_data buffer buffer_len = ⟨0, a2_data, buffer⟩) ∧
    (buffer_len < 69 → build_a3_packet a3_data buffer buffer_len = ⟨0, a3_data, buffer⟩) := by
  refine ⟨?_, ?_, ?_, ?_⟩
  · intro h
    unfold build_a0_packet
    rw [if_pos (by omega)]
  · intro h
    unfold build_a1_packet
    rw [if_pos (by omega)]
  · intro h
    unfold build_a2_packet
    rw [if_pos (by omega)]
  · intro h
    unfold build_a3_packet
    rw [if_pos (by simp; left; omega)]

/-- Witness for C21: each builder with a buffer one byte short of its wire size. -/
theorem builders_reject_short_buffer_witness :
    build_a0_packet ⟨0xA0, 3, 0⟩ [9, 9, 9] 3 = ⟨0, ⟨0xA0, 3, 0⟩, [9, 9, 9]⟩ ∧
    build_a1_packet ⟨0xA1, 1, 5, 2, 10, 3, 0⟩ (List.replicate 7 9) 7
      = ⟨0, ⟨0xA1, 1, 5, 2, 10, 3, 0⟩, List.replicate 7 9⟩ ∧
    build_a2_packet a2_demo (List.replicate 22 9) 22 = ⟨0, a2_demo, List.replicate 22 9⟩ ∧
    build_a3_packet a3_blank (List.replicate 68 9) 68 = ⟨0, a3_blank, List.replicate 68 9⟩ :=
  ⟨(builders_reject_short_buffer ⟨0xA0, 3, 0⟩ ⟨0xA1, 1, 5, 2, 10, 3, 0⟩ a2_demo a3_blank
      [9, 9, 9] 3).1 (by decide),
    (builders_reject_short_buffer ⟨0xA0, 3, 0⟩ ⟨0xA1, 1, 5, 2, 10, 3, 0⟩ a2_demo a3_blank
      (List.replicate 7 9) 7).2.1 (by decide),
    (builders_reject_short_buffer ⟨0xA0, 3, 0⟩ ⟨0xA1, 1, 5, 2, 10, 3, 0⟩ a2_demo a3_blank
      (List.replicate 22 9) 22).2.2.1 (by decide),
    (builders_reject_short_buffer ⟨0xA0, 3, 0⟩ ⟨0xA1, 1, 5, 2, 10, 3, 0⟩ a2_demo a3_blank
      (List.replicate 68 9) 68).2.2.2 (by decide)⟩

/-- C22: for every destination buffer of every length and every input whose declared
valid-length `data_len` is in 65..255, `build_a3_packet` returns 0 and leaves every byte
of the destination buffer (and the struct) unchanged. -/
theorem build_a3_packet_rejects_long_data_len (a3_data : ble_cmd_a3_t) (buffer : List Nat)
    (buffer_len : Nat) (hlo : 65 ≤ a3_data.data_len) (hhi : a3_data.data_len ≤ 255) :
    build_a3_packet a3_data buffer buffer_len = ⟨0, a3_data, buffer⟩ := by
  unfold build_a3_packet
  rw [if_pos (by simp; right; omega)]

/-- Witness for C22: `data_len = 65` with a buffer that is large enough. -/
theorem build_a3_packet_rejects_long_data_len_witness :
    65 ≤ (⟨0xA3, 1, 65, List.replicate 64 7, 0⟩ : ble_cmd_a3_t).data_len ∧
    (⟨0xA3, 1, 65, List.replicate 64 7, 0⟩ : ble_cmd_a3_t).data_len ≤ 255 ∧
    build_a3_packet ⟨0xA3, 1, 65, List.replicate 64 7, 0⟩ (List.replicate 70 9) 70
      = ⟨0, ⟨0xA3, 1, 65, List.replicate 64 7, 0⟩, List.replicate 70 9⟩ :=
  ⟨by decide, by decide,
    build_a3_packet_rejects_long_data_len ⟨0xA3, 1, 65, List.replicate 64 7, 0⟩
      (List.replicate 70 9) 70 (by decide) (by decide)⟩

/-- C23 (as stated, refuted): `build_a0_packet` given a struct whose `cmd` field holds
`0x55` succeeds (returns 4) and the first byte it writes is `0x55`, not `0xA0`. -/
theorem build_a0_packet_first_byte_not_constant :
    (build_a0_packet ⟨0x55, 3, 0⟩ [0, 0, 0, 0] 4).ret = 4 ∧
    (build_a0_packet ⟨0x55, 3, 0⟩ [0, 0, 0, 0] 4).buffer[0]? = some 0x55 ∧
    (build_a0_packet ⟨0x55, 3, 0⟩ [0, 0, 0, 0] 4).buffer[0]? ≠ some 0xA0 := by
  decide

/-- C23 (amended): for every input on which it succeeds, the first byte written by
`build_a0_packet`, `build_a1_packet`, `build_a2_packet` and `build_a3_packet` is the
`cmd` field of the struct it was given; it is `0xA0`, `0xA1`, `0xA2`, `0xA3` when the
caller stored the command byte of the kind there, as the chunk loop of
`send_a2_a3_combination` does for every chunk packet. -/
theorem builders_first_byte_is_cmd_field (a0_data : ble_cmd_a0_t) (a1_data : ble_cmd_a1_t)
    (a2_data : ble_cmd_a2_t) (a3_data : ble_cmd_a3_t) (buffer : List Nat)
    (buffer_len : Nat) (hlen : buffer_len ≤ buffer.length) :
    (4 ≤ buffer_len →
      (build_a0_packet a0_data buffer buffer_len).ret = 4 ∧
      (build_a0_packet a0_data buffer buffer_len).buffer[0]? = some a0_data.cmd) ∧
    (8 ≤ buffer_len →
      (build_a1_packet a1_data buffer buffer_len).ret = 8 ∧
      (build_a1_packet a1_data buffer buffer_len).buffer[0]? = some a1_data.cmd) ∧
    (23 ≤ buffer_len → a2_data.type_list.length = 16 →
      (build_a2_packet a2_data buffer buffer_len).ret = 23 ∧
      (build_a2_packet a2_data buffer buffer_len).buffer[0]? = some a2_data.cmd) ∧
    (69 ≤ buffer_len → a3_data.data_len ≤ 64 → a3_data.data.length = 64 →
      (build_a3_packet a3_data buffer buffer_len).ret = 69 ∧
      (build_a3_packet a3_data buffer buffer_len).buffer[0]? = some a3_data.cmd) ∧
    (∀ (total_packets data_len i : Nat) (data : List Nat),
      (chunk_packet total_packets data data_len i)[0]? = some 0xA3) := by
  refine ⟨?_, ?_, ?_, ?_, ?_⟩
  · intro h
    rw [build_a0_packet_eq _ _ _ h hlen]
    exact ⟨rfl, rfl⟩
  · intro h
    rw [build_a1_packet_eq _ _ _ h hlen]
    exact ⟨rfl, rfl⟩
  · intro h htl
    rw [build_a2_packet_eq _ _ _ h hlen htl]
    exact ⟨rfl, rfl⟩
  · intro h hdl hd
    rw [build_a3_packet_eq _ _ _ h hlen hdl hd]
    exact ⟨rfl, rfl⟩
  · intro total_packets data_len i data
    rw [chunk_packet_eq]
    rfl

/-- Witness for C23 (amended): a gear struct whose `cmd` field holds `0xA0`. -/
theorem builders_first_byte_is_cmd_field_witness :
    4 ≤ [0, 0, 0, 0].length ∧
    (build_a0_packet ⟨CMD_A0, 3, 0⟩ [0, 0, 0, 0] 4).ret = 4 ∧
    (build_a0_packet ⟨CMD_A0, 3, 0⟩ [0, 0, 0, 0] 4).buffer[0]?
      = some (⟨CMD_A0, 3, 0⟩ : ble_cmd_a0_t).cmd :=
  ⟨by decide,
    (builders_first_byte_is_cmd_field ⟨CMD_A0, 3, 0⟩ ⟨0xA1, 1, 5, 2, 10, 3, 0⟩ a2_demo
      a3_blank [0, 0, 0, 0] 4 (by decide)).1 (by decide)⟩

/-- C24: round trip. For each of the four builders and every input on which it
succeeds, decoding the returned bytes at the layout offsets recovers every input field:
`gear` from `b[1]`; the five info bytes from `b[1..5]`; `total_bytes` as
`256*b[1] + b[2]`, `total_packets` from `b[3]`, `char_len` from `b[4]` and the 16
type-list bytes from `b[5..20]`; `packet_num` from `b[1]`, `data_len` from `b[2]` and
the 64 data bytes from `b[3..66]`. -/
theorem builders_round_trip (a0_data : ble_cmd_a0_t) (a1_data : ble_cmd_a1_t)
    (a2_data : ble_cmd_a2_t) (a3_data : ble_cmd_a3_t) (buffer : List Nat)
    (buffer_len : Nat) (hlen : buffer_len ≤ buffer.length) :
    (4 ≤ buffer_len →
      (build_a0_packet a0_data buffer buffer_len).buffer[1]? = some a0_data.gear) ∧
    (8 ≤ buffer_len →
      ((build_a1_packet a1_data buffer buffer_len).buffer.drop 1).take 5
        = [a1_data.play_mode, a1_data.total_lists, a1_data.current_list,
            a1_data.effect_count, a1_data.current_effect]) ∧
    (23 ≤ buffer_len → a2_data.type_list.length = 16 → a2_data.total_bytes < 65536 →
      256 * (build_a2_packet a2_data buffer buffer_len).buffer.getD 1 0
          + (build_a2_packet a2_data buffer buffer_len).buffer.getD 2 0
        = a2_data.total_bytes ∧
      (build_a2_packet a2_data buffer buffer_len).buffer[3]? = some a2_data.total_packets ∧
      (build_a2_packet a2_data buffer buffer_len).buffer[4]? = some a2_data.char_len ∧
      ((build_a2_packet a2_data buffer buffer_len).buffer.drop 5).take 16
        = a2_data.type_list) ∧
    (69 ≤ buffer_len → a3_data.data_len ≤ 64 → a3_data.data.length = 64 →
      (build_a3_packet a3_data buffer buffer_len).buffer[1]? = some a3_data.packet_num ∧
      (build_a3_packet a3_data buffer buffer_len).buffer[2]? = some a3_data.data_len ∧
      ((build_a3_packet a3_data buffer buffer_len).buffer.drop 3).take 64
        = a3_data.data) := by
  refine ⟨?_, ?_, ?_, ?_⟩
  · intro h
    rw [build_a0_packet_eq _ _ _ h hlen]
    rfl
  · intro h
    rw [build_a1_packet_eq _ _ _ h hlen]
    rfl
  · intro h htl htb
    rw [build_a2_packet_eq _ _ _ h hlen htl, shift_mask_hi _ htb, mask_lo]
    refine ⟨?_, by simp, by simp, ?_⟩
    · simp only [List.cons_append, List.getD_cons_succ, List.getD_cons_zero]
      omega
    · simp only [List.cons_append, List.nil_append, List.drop_succ_cons, List.drop_zero,
        List.append_assoc]
      exact List.take_left' htl
  · intro h hdl hd
    rw [build_a3_packet_eq _ _ _ h hlen hdl hd]
    refine ⟨by simp, by simp, ?_⟩
    simp only [List.cons_append, List.nil_append, List.drop_succ_cons, List.drop_zero,
      List.append_assoc]
    exact List.take_left' hd

/-- Witness for C24: the header struct of a 100-byte payload into a 23-byte buffer. -/
theorem builders_round_trip_witness :
    23 ≤ (List.replicate 23 0).length ∧ a2_demo.type_list.length = 16 ∧
    a2_demo.total_bytes < 65536 ∧
    256 * (build_a2_packet a2_demo (List.replicate 23 0) 23).buffer.getD 1 0
        + (build_a2_packet a2_demo (List.replicate 23 0) 23).buffer.getD 2 0
      = a2_demo.total_bytes ∧
    (build_a2_packet a2_demo (List.replicate 23 0) 23).buffer[3]?
      = some a2_demo.total_packets ∧
    (build_a2_packet a2_demo (List.replicate 23 0) 23).buffer[4]? = some a2_demo.char_len ∧
    ((build_a2_packet a2_demo (List.replicate 23 0) 23).buffer.drop 5).take 16
      = a2_demo.type_list :=
  ⟨by decide, by decide, by decide,
    (builders_round_trip ⟨CMD_A0, 3, 0⟩ ⟨0xA1, 1, 5, 2, 10, 3, 0⟩ a2_demo a3_blank
      (List.replicate 23 0) 23 (by decide)).2.2.1 (by decide) (by decide) (by decide)⟩

/-! ## Checksum: algebraic properties -/

/-- C25: for every byte sequence `d` and every permutation `p` of `d`,
`calculate_checksum(p) = calculate_checksum(d)`: reordering the bytes within the summed
range does not change the checksum. -/
theorem calculate_checksum_perm (d p : List Nat) (h : p.Perm d) :
    calculate_checksum p p.length = calculate_checksum d d.length := by
  rw [calculate_checksum_take, calculate_checksum_take, List.take_length, List.take_length,
    h.sum_eq]

/-- Witness for C25: a packet prefix and its reversal. -/
theorem calculate_checksum_perm_witness :
    [0x03, 0x0A, 0xFF, 0xA1].Perm [0xA1, 0xFF, 0x0A, 0x03] ∧
    calculate_checksum [0x03, 0x0A, 0xFF, 0xA1] [0x03, 0x0A, 0xFF, 0xA1].length
      = calculate_checksum [0xA1, 0xFF, 0x0A, 0x03] [0xA1, 0xFF, 0x0A, 0x03].length :=
  ⟨by decide, calculate_checksum_perm [0xA1, 0xFF, 0x0A, 0x03] [0x03, 0x0A, 0xFF, 0xA1]
    (by decide)⟩

/-- C26: for every byte sequence `d`, the checksum of `d` followed by one `0x00` byte
equals the checksum of `d`: appending a zero byte to the summed range never changes
the checksum. -/
theorem calculate_checksum_append_zero (d : List Nat) :
    calculate_checksum (d ++ [0x00]) (d ++ [0x00]).length
      = calculate_checksum d d.length := by
  rw [calculate_checksum_take, calculate_checksum_take, List.take_length, List.take_length]
  simp

/-! ## Segmented send: chunk contents, and the null connection -/

theorem range_map_getD_take (l : List Nat) (n v : Nat) (hv : v ≤ n) (hl : v ≤ l.length) :
    ((List.range n).map (fun j => l.getD j 0)).take v = l.take v := by
  rw [← List.map_take, List.take_range, Nat.min_eq_left hv]
  exact range_map_getD l v hl

/-- C27: in `send_a2_a3_combination`, for every `total_packets = N` in 0..255 and every
`i` in `1..N`, the `i`-th chunk packet built carries command byte `0xA3`, chunk index
exactly `i` at offset 1 (1-based, never wrapping to 0), its valid length at offset 2,
and a data block whose first valid-length bytes equal the payload bytes at positions
`64*(i-1) .. 64*(i-1) + valid_len - 1`, provided the payload has at least
`64*(i-1) + valid_len` bytes. -/
theorem chunk_packet_contents (N i L : Nat) (data : List Nat) (hN : N ≤ 255) (hi1 : 1 ≤ i)
    (hiN : i ≤ N) (hpay : 64 * (i - 1) + current_len N L (i - 1) ≤ L)
    (hmem : L ≤ data.length) :
    (chunk_packet N data L (i - 1))[0]? = some 0xA3 ∧
    (chunk_packet N data L (i - 1))[1]? = some i ∧ i ≠ 0 ∧
    (chunk_packet N data L (i - 1))[2]? = some (current_len N L (i - 1)) ∧
    (((chunk_packet N data L (i - 1)).drop 3).take 64).take (current_len N L (i - 1))
      = ((data.take L).drop (64 * (i - 1))).take (current_len N L (i - 1)) := by
  have hv := current_len_le N L (i - 1)
  have hidx : (i - 1 + 1) % 256 = i := by omega
  have hblock : ((chunk_packet N data L (i - 1)).drop 3).take 64
      = (List.range 64).map (fun j => (data.drop ((i - 1) * 64)).getD j 0) := by
    rw [chunk_packet_eq]
    simp only [List.cons_append, List.nil_append, List.drop_succ_cons, List.drop_zero,
      List.append_assoc]
    exact List.take_left' (by simp)
  refine ⟨?_, ?_, by omega, ?_, ?_⟩
  · rw [chunk_packet_eq]; rfl
  · rw [chunk_packet_eq, hidx]; rfl
  · rw [chunk_packet_eq]; rfl
  · rw [hblock, range_map_getD_take _ 64 _ hv (by simp; omega), List.drop_take,
      List.take_take, show (i - 1) * 64 = 64 * (i - 1) by omega,
      Nat.min_eq_left (by omega)]

/-- Witness for C27: the last of the three chunks of a 180-byte payload. -/
theorem chunk_packet_contents_witness :
    3 ≤ 255 ∧ 1 ≤ 3 ∧ 3 ≤ 3 ∧ 64 * (3 - 1) + current_len 3 180 (3 - 1) ≤ 180 ∧
    (chunk_packet 3 (List.replicate 180 7) 180 (3 - 1))[1]? = some 3 ∧
    (chunk_packet 3 (List.replicate 180 7) 180 (3 - 1))[2]? = some (current_len 3 180 (3 - 1)) :=
  ⟨by decide, by decide, by decide, by decide,
    (chunk_packet_contents 3 3 180 (List.replicate 180 7) (by decide) (by decide) (by decide)
      (by decide) (by rw [List.length_replicate])).2.1,
    (chunk_packet_contents 3 3 180 (List.replicate 180 7) (by decide) (by decide) (by decide)
      (by decide) (by rw [List.length_replicate])).2.2.2.1⟩

/-- C28: `send_packet_with_retry` called with `connection = NULL` returns false on its
first iteration, issues no write and performs no wait, and leaves `success_count` and
`fail_count` (indeed the whole program state) unchanged. -/
theorem send_packet_with_retry_null_connection (fuel : Nat) (data : List Nat) (len : Nat)
    (env : Nat → Attempt) (w : World) (hfuel : 1 ≤ fuel) :
    send_packet_with_retry fuel none data len env w = some (false, w) := by
  obtain ⟨f, rfl⟩ : ∃ f, fuel = f + 1 := ⟨fuel - 1, by omega⟩
  exact loop_null data len env f 0 w (by decide)

/-- Witness for C28: a gear packet sent over a null connection from the initial state. -/
theorem send_packet_with_retry_null_connection_witness :
    1 ≤ 4 ∧
    send_packet_with_retry 4 none [0xA0, 3, 0, 0xA3] 4 env_acked world_init
      = some (false, world_init) :=
  ⟨by decide,
    send_packet_with_retry_null_connection 4 [0xA0, 3, 0, 0xA3] 4 env_acked world_init
      (by decide)⟩

/-! ## Checksum: no wrap-around inside a packet -/

theorem bytes_sum_le (l : List Nat) (h : ∀ x, x ∈ l → x < 256) : l.sum ≤ 255 * l.length := by
  induction l with
  | nil => simp
  | cons a t ih =>
    have ha := h a (List.mem_cons_self a t)
    have ht := ih (fun x hx => h x (List.mem_cons_of_mem a hx))
    simp only [List.sum_cons, List.length_cons]
    omega

theorem getD_after_front (xs rest : List Nat) (k j : Nat) (hk : xs.length = k) :
    (xs ++ rest).getD (k + j) 0 = rest.getD j 0 := by
  subst hk
  rw [List.getD_eq_getElem?_getD, List.getD_eq_getElem?_getD,
    List.getElem?_append_right (by omega)]
  simp

theorem checksum_bytes_join (c : Nat) (h : c < 65536) :
    256 * ((c >>> 8) &&& 0xFF) + (c &&& 0xFF) = c ∧ (c >>> 8) &&& 0xFF = c / 256 := by
  rw [shift_mask_hi c h, mask_lo]
  omega

/-- C29: for every input with byte-valued fields, the checksum written by each of the
four builders equals the exact integer sum of the bytes it covers, i.e. the 16-bit
accumulator never wraps inside a packet: the sum is at most `2*255` for A0 (offsets
0..1), `6*255` for A1 (offsets 0..5), `20*255` for A2 (the 20 bytes at offsets 0..19
that the call of `calculate_checksum` covers) and `64*255 = 16320` for A3 (the data block
at offsets 3..66), so the high checksum byte is at most `0x01`, `0x05`, `0x13` and
`0x3F` respectively. -/
theorem checksums_never_wrap (a0_data : ble_cmd_a0_t) (a1_data : ble_cmd_a1_t)
    (a2_data : ble_cmd_a2_t) (a3_data : ble_cmd_a3_t)
    (buffer : List Nat) (buffer_len : Nat) (hlen : buffer_len ≤ buffer.length) :
    (4 ≤ buffer_len → a0_data.cmd < 256 → a0_data.gear < 256 →
      256 * (build_a0_packet a0_data buffer buffer_len).buffer.getD 2 0
          + (build_a0_packet a0_data buffer buffer_len).buffer.getD 3 0
        = ((build_a0_packet a0_data buffer buffer_len).buffer.take 2).sum ∧
      ((build_a0_packet a0_data buffer buffer_len).buffer.take 2).sum ≤ 2 * 255 ∧
      (build_a0_packet a0_data buffer buffer_len).buffer.getD 2 0 ≤ 0x01) ∧
    (8 ≤ buffer_len → a1_data.cmd < 256 → a1_data.play_mode < 256 →
      a1_data.total_lists < 256 → a1_data.current_list < 256 →
      a1_data.effect_count < 256 → a1_data.current_effect < 256 →
      256 * (build_a1_packet a1_data buffer buffer_len).buffer.getD 6 0
          + (build_a1_packet a1_data buffer buffer_len).buffer.getD 7 0
        = ((build_a1_packet a1_data buffer buffer_len).buffer.take 6).sum ∧
      ((build_a1_packet a1_data buffer buffer_len).buffer.take 6).sum ≤ 6 * 255 ∧
      (build_a1_packet a1_data buffer buffer_len).buffer.getD 6 0 ≤ 0x05) ∧
    (23 ≤ buffer_len → a2_data.cmd < 256 → a2_data.total_bytes < 65536 →
      a2_data.total_packets < 256 → a2_data.char_len < 256 →
      a2_data.type_list.length = 16 → (∀ x, x ∈ a2_data.type_list → x < 256) →
      256 * (build_a2_packet a2_data buffer buffer_len).buffer.getD 21 0
          + (build_a2_packet a2_data buffer buffer_len).buffer.getD 22 0
        = ((build_a2_packet a2_data buffer buffer_len).buffer.take 20).sum ∧
      ((build_a2_packet a2_data buffer buffer_len).buffer.take 20).sum ≤ 20 * 255 ∧
      (build_a2_packet a2_data buffer buffer_len).buffer.getD 21 0 ≤ 0x13) ∧
    (69 ≤ buffer_len → a3_data.data_len ≤ 64 → a3_data.data.length = 64 →
      (∀ x, x ∈ a3_data.data → x < 256) →
      256 * (build_a3_packet a3_data buffer buffer_len).buffer.getD 67 0
          + (build_a3_packet a3_data buffer buffer_len).buffer.getD 68 0
        = (((build_a3_packet a3_data buffer buffer_len).buffer.drop 3).take 64).sum ∧
      (((build_a3_packet a3_data buffer buffer_len).buffer.drop 3).take 64).sum ≤ 64 * 255 ∧
      64 * 255 = 16320 ∧
      (build_a3_packet a3_data buffer buffer_len).buffer.getD 67 0 ≤ 0x3F) := by
  refine ⟨?_, ?_, ?_, ?_⟩
  · intro h hc hg
    rw [build_a0_packet_eq _ _ _ h hlen]
    have hs : (a0_data.cmd + a0_data.gear) % 65536 = a0_data.cmd + a0_data.gear :=
      Nat.mod_eq_of_lt (by omega)
    obtain ⟨hj, hhi⟩ := checksum_bytes_join (a0_data.cmd + a0_data.gear) (by omega)
    rw [hs]
    simp only [List.cons_append, List.nil_append, List.getD_cons_succ, List.getD_cons_zero,
      List.take_succ_cons, List.take_zero, List.sum_cons, List.sum_nil]
    rw [hhi] at hj ⊢
    omega
  · intro h h0 h1 h2 h3 h4 h5
    rw [build_a1_packet_eq _ _ _ h hlen, calculate_checksum_take]
    simp only [List.cons_append, List.nil_append, List.getD_cons_succ, List.getD_cons_zero,
      List.take_succ_cons, List.take_zero, List.sum_cons, List.sum_nil]
    have hs : (a1_data.cmd + (a1_data.play_mode + (a1_data.total_lists
        + (a1_data.current_list + (a1_data.effect_count + (a1_data.current_effect + 0))))))
          % 65536
        = a1_data.cmd + (a1_data.play_mode + (a1_data.total_lists
        + (a1_data.current_list + (a1_data.effect_count + (a1_data.current_effect + 0))))) :=
      Nat.mod_eq_of_lt (by omega)
    obtain ⟨hj, hhi⟩ := checksum_bytes_join (a1_data.cmd + (a1_data.play_mode
      + (a1_data.total_lists + (a1_data.current_list + (a1_data.effect_count
      + (a1_data.current_effect + 0)))))) (by omega)
    rw [hs]
    rw [hhi] at hj ⊢
    omega
  · intro h hc htb htp hcl htl hbytes
    rw [build_a2_packet_eq _ _ _ h hlen htl, calculate_checksum_take]
    have h15 : (a2_data.type_list.take 15).sum ≤ 255 * 15 := by
      have := bytes_sum_le (a2_data.type_list.take 15)
        (fun x hx => hbytes x (List.mem_of_mem_take hx))
      rw [List.length_take] at this
      omega
    have hfsum : (([a2_data.cmd, (a2_data.total_bytes >>> 8) &&& 0xFF,
        a2_data.total_bytes &&& 0xFF, a2_data.total_packets, a2_data.char_len]
          ++ a2_data.type_list).take 20).sum
        = a2_data.cmd + (a2_data.total_bytes / 256 + (a2_data.total_bytes % 256
          + (a2_data.total_packets + (a2_data.char_len
            + (a2_data.type_list.take 15).sum)))) := by
      rw [shift_mask_hi _ htb, mask_lo]
      simp only [List.cons_append, List.nil_append, List.take_succ_cons, List.sum_cons]
    have hfl : ([a2_data.cmd, (a2_data.total_bytes >>> 8) &&& 0xFF,
        a2_data.total_bytes &&& 0xFF, a2_data.total_packets, a2_data.char_len]
          ++ a2_data.type_list).length = 21 := by simp [htl]
    generalize [a2_data.cmd, (a2_data.total_bytes >>> 8) &&& 0xFF,
        a2_data.total_bytes &&& 0xFF, a2_data.total_packets, a2_data.char_len]
          ++ a2_data.type_list = front at hfsum hfl ⊢
    have hlt : (front.take 20).sum < 65536 := by
      rw [hfsum]
      have := Nat.div_lt_of_lt_mul (show a2_data.total_bytes < 256 * 256 from htb)
      have := Nat.mod_lt a2_data.total_bytes (show 256 > 0 by decide)
      omega
    obtain ⟨hj, hhi2⟩ := checksum_bytes_join _ hlt
    simp only [List.append_assoc]
    rw [List.take_append_of_le_length (by omega), Nat.mod_eq_of_lt hlt,
      show (21 : Nat) = 21 + 0 from rfl, getD_after_front front _ 21 0 hfl,
      show (22 : Nat) = 21 + 1 from rfl, getD_after_front front _ 21 1 hfl]
    simp only [List.cons_append, List.nil_append, List.getD_cons_succ, List.getD_cons_zero]
    refine ⟨hj, ?_, ?_⟩
    · rw [hfsum]
      have := Nat.div_lt_of_lt_mul (show a2_data.total_bytes < 256 * 256 from htb)
      have := Nat.mod_lt a2_data.total_bytes (show 256 > 0 by decide)
      omega
    · rw [hhi2, hfsum]
      have := Nat.div_lt_of_lt_mul (show a2_data.total_bytes < 256 * 256 from htb)
      have := Nat.mod_lt a2_data.total_bytes (show 256 > 0 by decide)
      omega
  · intro h hdl hd hbytes
    rw [build_a3_packet_eq _ _ _ h hlen hdl hd, calculate_checksum_take,
      List.take_of_length_le (by omega)]
    have hsum : a3_data.data.sum ≤ 255 * 64 := by
      have := bytes_sum_le a3_data.data hbytes
      rw [hd] at this
      exact this
    have hfl : ([a3_data.cmd, a3_data.packet_num, a3_data.data_len]
        ++ a3_data.data).length = 67 := by simp [hd]
    have hblock : ∀ rest : List Nat,
        (([a3_data.cmd, a3_data.packet_num, a3_data.data_len] ++ a3_data.data ++ rest).drop 3).take 64
          = a3_data.data := by
      intro rest
      simp only [List.cons_append, List.nil_append, List.drop_succ_cons, List.drop_zero,
        List.append_assoc]
      exact List.take_left' hd
    obtain ⟨hj, hhi2⟩ := checksum_bytes_join a3_data.data.sum (by omega)
    rw [Nat.mod_eq_of_lt (show a3_data.data.sum < 65536 by omega)]
    rw [List.append_assoc ([a3_data.cmd, a3_data.packet_num, a3_data.data_len]
      ++ a3_data.data), hblock]
    generalize [a3_data.cmd, a3_data.packet_num, a3_data.data_len] ++ a3_data.data
      = front at hfl ⊢
    rw [show (67 : Nat) = 67 + 0 from rfl, getD_after_front front _ 67 0 hfl,
      show (68 : Nat) = 67 + 1 from rfl, getD_after_front front _ 67 1 hfl]
    simp only [List.cons_append, List.nil_append, List.getD_cons_succ, List.getD_cons_zero]
    refine ⟨hj, by omega, by decide, ?_⟩
    rw [hhi2]
    omega

/-- Witness for C29: a chunk whose 64 data bytes are all `0xFF` (sum 16320, checksum
bytes `0x3F, 0xC0`). -/
theorem checksums_never_wrap_witness :
    70 ≤ (List.replicate 70 0).length ∧ 69 ≤ 70 ∧ a3_all_ff.data_len ≤ 64 ∧
    a3_all_ff.data.length = 64 ∧ (∀ x, x ∈ a3_all_ff.data → x < 256) ∧
    256 * (build_a3_packet a3_all_ff (List.replicate 70 0) 70).buffer.getD 67 0
        + (build_a3_packet a3_all_ff (List.replicate 70 0) 70).buffer.getD 68 0
      = (((build_a3_packet a3_all_ff (List.replicate 70 0) 70).buffer.drop 3).take 64).sum ∧
    (((build_a3_packet a3_all_ff (List.replicate 70 0) 70).buffer.drop 3).take 64).sum
      ≤ 64 * 255 ∧
    64 * 255 = 16320 ∧
    (build_a3_packet a3_all_ff (List.replicate 70 0) 70).buffer.getD 67 0 ≤ 0x3F :=
  ⟨by decide, by decide, by decide, by decide,
    fun x hx => by rw [List.eq_of_mem_replicate hx]; decide,
    (checksums_never_wrap ⟨CMD_A0, 3, 0⟩ ⟨0xA1, 1, 5, 2, 10, 3, 0⟩ a2_demo a3_all_ff
      (List.replicate 70 0) 70 (by decide)).2.2.2 (by decide) (by decide) (by decide)
      (fun x hx => by rw [List.eq_of_mem_replicate hx]; decide)⟩

/-! ## MAC address comparison -/

theorem eq_ignoring_case_cons (c1 c2 : Nat) (a b : List Nat) :
    eq_ignoring_case (c1 :: a) (c2 :: b)
      = (decide (toupper c1 = toupper c2) && eq_ignoring_case a b) := by
  unfold eq_ignoring_case
  simp only [List.length_cons, List.map_cons, List.cons.injEq, Nat.add_right_cancel_iff]
  by_cases h1 : a.length = b.length <;> by_cases h2 : toupper c1 = toupper c2 <;>
    by_cases h3 : List.map toupper a = List.map toupper b <;> simp [h1, h2, h3]

/-- Where the first string holds no `':'`, `mac_compare` is the case-insensitive
comparison: it returns 0 exactly for strings of the same length that are equal
character by character when ASCII letter case is ignored, and 1 otherwise. -/
theorem mac_compare_without_colon (a : List Nat) :
    ∀ b : List Nat, (∀ c, c ∈ a → c ≠ 58) →
      (mac_compare a b = 0 ↔ eq_ignoring_case a b = true) ∧
      (mac_compare a b = 0 ∨ mac_compare a b = 1) := by
  induction a with
  | nil =>
    intro b _
    cases b with
    | nil => exact ⟨by simp [mac_compare, eq_ignoring_case], Or.inl rfl⟩
    | cons c2 b => exact ⟨by simp [mac_compare, eq_ignoring_case], Or.inr rfl⟩
  | cons c1 a ih =>
    intro b hno
    have h58 : c1 ≠ 58 := hno c1 (List.mem_cons_self c1 a)
    cases b with
    | nil => exact ⟨by simp [mac_compare, eq_ignoring_case], Or.inr rfl⟩
    | cons c2 b =>
      obtain ⟨ih1, ih2⟩ := ih b (fun c hc => hno c (List.mem_cons_of_mem c1 hc))
      rw [mac_compare, if_neg h58, eq_ignoring_case_cons]
      by_cases hu : toupper c1 = toupper c2
      · simp only [hu, ne_eq, not_true_eq_false, if_false, decide_True, Bool.true_and]
        exact ⟨ih1, ih2⟩
      · simp [hu]

end BleGatt
